import Mathlib

/-!
Verification of the OpenOCD ARM semihosting dispatcher
(src/target/semihosting_common.c) and the TPIU/SWO trace controller
(src/target/arm_tpiu_swo.c) against their natural-language specification.

The C code is shallowly embedded: the dispatcher and the TPIU command
handlers become pure Lean functions over an explicit state, with an
"environment" record standing for the outcomes of external calls (target
memory transfers, host I/O, the trace adapter, the Jim interpreter event
hooks).  All externally visible side effects are collected in an action
trace so that theorems can speak about which host calls were or were not
performed.
-/

namespace OpenOCD

/-! ### External status and errno constants

`ERROR_OK` and `ERROR_FAIL` are OpenOCD status codes; the errno values are
the host values used by the C code (their exact numbers are irrelevant to
the proofs, only their distinctness matters). -/

abbrev ERROR_OK : Int := 0

abbrev ERROR_FAIL : Int := -4

/-- External constant `ERROR_NOT_IMPLEMENTED` used by the user-command
extension protocol. -/
abbrev ERROR_NOT_IMPLEMENTED : Int := -7

abbrev EBADF : Int := 9

abbrev ENOMEM : Int := 12

abbrev EINVAL : Int := 22

abbrev ENOTSUP : Int := 95

/-! ### Semihosting opcodes (ARM Semihosting 2.0, as in semihosting_common.h) -/

abbrev SEMIHOSTING_SYS_OPEN : Nat := 0x01

abbrev SEMIHOSTING_SYS_CLOSE : Nat := 0x02

abbrev SEMIHOSTING_SYS_WRITEC : Nat := 0x03

abbrev SEMIHOSTING_SYS_WRITE0 : Nat := 0x04

abbrev SEMIHOSTING_SYS_WRITE : Nat := 0x05

abbrev SEMIHOSTING_SYS_READ : Nat := 0x06

abbrev SEMIHOSTING_SYS_READC : Nat := 0x07

abbrev SEMIHOSTING_SYS_ISERROR : Nat := 0x08

abbrev SEMIHOSTING_SYS_ISTTY : Nat := 0x09

abbrev SEMIHOSTING_SYS_SEEK : Nat := 0x0A

abbrev SEMIHOSTING_SYS_FLEN : Nat := 0x0C

abbrev SEMIHOSTING_SYS_TMPNAM : Nat := 0x0D

abbrev SEMIHOSTING_SYS_REMOVE : Nat := 0x0E

abbrev SEMIHOSTING_SYS_RENAME : Nat := 0x0F

abbrev SEMIHOSTING_SYS_CLOCK : Nat := 0x10

abbrev SEMIHOSTING_SYS_TIME : Nat := 0x11

abbrev SEMIHOSTING_SYS_SYSTEM : Nat := 0x12

abbrev SEMIHOSTING_SYS_ERRNO : Nat := 0x13

abbrev SEMIHOSTING_SYS_GET_CMDLINE : Nat := 0x15

abbrev SEMIHOSTING_SYS_HEAPINFO : Nat := 0x16

abbrev SEMIHOSTING_SYS_EXIT : Nat := 0x18

abbrev SEMIHOSTING_SYS_EXIT_EXTENDED : Nat := 0x20

abbrev SEMIHOSTING_SYS_ELAPSED : Nat := 0x30

abbrev SEMIHOSTING_SYS_TICKFREQ : Nat := 0x31

abbrev SEMIHOSTING_USER_CMD_0X100 : Nat := 0x100

abbrev SEMIHOSTING_USER_CMD_0X107 : Nat := 0x107

abbrev SEMIHOSTING_MAX_TCL_COMMAND_FIELD_LENGTH : Nat := 1024

abbrev ADP_STOPPED_APPLICATION_EXIT : Nat := 0x20026

abbrev ADP_STOPPED_RUN_TIME_ERROR : Nat := 0x20023

/-! ### Machine-integer helpers -/

/-- Truncate to a 32-bit unsigned value (C `uint32_t` conversion). -/
def u64ToU32 (n : Nat) : Nat := n % 4294967296

/-- Reinterpret the low 32 bits as a signed C `int`. -/
def toInt32 (n : Nat) : Int :=
  let m := n % 4294967296
  if m < 2147483648 then (m : Int) else (m : Int) - 4294967296

/-- Reinterpret the low 64 bits as a signed 64-bit value (C `off_t`). -/
def toInt64 (n : Nat) : Int :=
  let m := n % 18446744073709551616
  if m < 9223372036854775808 then (m : Int) else (m : Int) - 18446744073709551616

/-! ### Semihosting state

Mirrors `struct semihosting` from semihosting_common.h, restricted to the
fields read or written by `semihosting_common` and its helpers. -/

inductive RedirectCfg where
  | cfgNone
  | cfgDebug
  | cfgStdio
  | cfgAll
deriving DecidableEq, Repr

/-- Mirror of `struct gdb_fileio_info` (identifier plus four parameters). -/
structure FileioInfo where
  identifier : String := ""
  p1 : Nat := 0
  p2 : Nat := 0
  p3 : Nat := 0
  p4 : Nat := 0
deriving DecidableEq, Repr

structure SemiState where
  isFileio : Bool := false
  hasResumableExit : Bool := false
  redirectCfg : RedirectCfg := RedirectCfg.cfgNone
  /-- Whether `semihosting->tcp_connection` is non-NULL. -/
  tcpConnection : Bool := false
  stdinFd : Int := -1
  stdoutFd : Int := -1
  stderrFd : Int := -1
  op : Nat := 0
  param : Nat := 0
  wordSizeBytes : Nat := 4
  result : Int := -1
  sysErrno : Int := 0
  hitFileio : Bool := false
  isResumable : Bool := false
  basedir : Option String := none
  cmdline : Option String := none
  fileio : FileioInfo := {}
deriving DecidableEq, Repr

/-- Oracle for every external call a single dispatch can make: target
memory transfers, allocation, host libc calls, the TCP redirect client and
the callbacks.  A record of results, fixed before the dispatch runs. -/
structure HostEnv where
  /-- `semihosting_read_fields` succeeds. -/
  readFieldsOk : Bool := true
  /-- Raw 64-bit content of field `i` of the parameter block. -/
  fields : Nat → Nat := fun _ => 0
  /-- Status returned by a failing target memory transfer. -/
  memErrCode : Int := -4
  mallocOk : Bool := true
  /-- `target_read_memory` / `target_read_buffer` of payload data succeeds. -/
  readBufOk : Bool := true
  /-- `target_write_buffer` / `target_write_memory` of payload data succeeds. -/
  writeBufOk : Bool := true
  /-- `semihosting_write_fields` succeeds. -/
  writeFieldsOk : Bool := true
  /-- The NUL-terminated byte string read from target memory (file names,
  command strings). -/
  memName : String := ""
  /-- Bytes (before the terminating NUL) read by the WRITE0 loop. -/
  memBytes : List Nat := []
  gdbConnections : Nat := 0
  clockDelta : Int := 0
  timeNow : Int := 0
  hostCloseRes : Int := 0
  hostErrno : Int := 0
  /-- `fstat` returns 0. -/
  fstatOk : Bool := true
  fstatSize : Int := 0
  isattyRes : Bool := true
  dupRes : Int := 3
  hostOpenRes : Int := 3
  hostReadRes : Int := 0
  hostWriteRes : Int := 0
  connReadRes : Int := 0
  connWriteRes : Int := 0
  /-- Byte delivered by a successful 1-byte redirect read. -/
  readByte : Nat := 0
  getcharRes : Int := 0
  removeRes : Int := 0
  renameRes : Int := 0
  lseekRes : Int := 0
  systemRes : Int := 0
  /-- `none` when no native user-command extension is registered, otherwise
  the status it returns. -/
  userCmdExtRes : Option Int := none
  eventCallbacksRes : Int := 0
  postResultRes : Int := 0

/-- Externally visible effects of one dispatch, in order. -/
inductive HostAct where
  | close (fd : Int)
  | fstat (fd : Int)
  | isattyCall (fd : Int)
  | dup (mode : Nat)
  | openFile (name : String) (mode : Nat)
  | readCall (fd : Int) (len : Nat)
  | writeCall (fd : Int) (len : Nat)
  | putcharCall
  | getcharCall
  | connRead (len : Nat)
  | connWrite (len : Nat)
  | removeCall (name : String)
  | renameCall (a : String) (b : String)
  | lseekCall (fd : Int) (pos : Int)
  | systemCall (cmd : String)
  | haltEvent
  | userExt
  | userEvent (op : Nat)
  | fileioPublish (ident : String)
  | postResult
deriving DecidableEq, Repr

/-- Result of the body of `semihosting_common` (the big `switch`).
`done` means control fell out of the switch to the common epilogue;
`early` is a `return` inside the switch; `exited` models a call of the C
`exit` function (which does not return). -/
inductive CoreOut where
  | done (st : SemiState) (acts : List HostAct)
  | early (status : Int) (st : SemiState) (acts : List HostAct)
  | exited (code : Int) (st : SemiState) (acts : List HostAct)
deriving DecidableEq, Repr

def CoreOut.state : CoreOut → SemiState
  | .done st _ => st
  | .early _ st _ => st
  | .exited _ st _ => st

def CoreOut.acts : CoreOut → List HostAct
  | .done _ a => a
  | .early _ _ a => a
  | .exited _ _ a => a

/-- Result of a whole `semihosting_common` call. -/
inductive DispatchOut where
  | ret (status : Int) (st : SemiState) (acts : List HostAct)
  | exited (code : Int) (st : SemiState) (acts : List HostAct)
deriving DecidableEq, Repr

def DispatchOut.state : DispatchOut → SemiState
  | .ret _ st _ => st
  | .exited _ st _ => st

def DispatchOut.acts : DispatchOut → List HostAct
  | .ret _ _ a => a
  | .exited _ _ a => a

/-- The status returned by the dispatcher, `none` when the process exited. -/
def DispatchOut.retStatus : DispatchOut → Option Int
  | .ret s _ _ => some s
  | .exited _ _ _ => none

/-- Proof-side predicate on the outcome of the dispatcher switch: the body
never invokes `post_result` itself, and every `return` taken inside the
switch (and every process exit) happens with no fileio request pending. -/
def corePostOk (o : CoreOut) : Prop :=
  o.acts.count HostAct.postResult = 0 ∧
  (match o with
   | .done _ _ => True
   | .early _ s _ => s.hitFileio = false
   | .exited _ s _ => s.hitFileio = false)

/-! ### Field access (semihosting_get_field / word packing) -/

/-- `semihosting_get_field`: a field is a 32-bit value for
`word_size_bytes = 4` and a 64-bit value for `word_size_bytes = 8`. -/
def getField (st : SemiState) (env : HostEnv) (i : Nat) : Nat :=
  if st.wordSizeBytes = 8 then env.fields i % 18446744073709551616
  else env.fields i % 4294967296

/-- `semihosting_is_redirected`: decides whether the operation on `fd` is
diverted to the TCP redirect client. -/
def isRedirected (st : SemiState) (fd : Int) : Bool :=
  if st.redirectCfg = RedirectCfg.cfgNone then false
  else if st.op = SEMIHOSTING_SYS_READC ∨ st.op = SEMIHOSTING_SYS_WRITEC ∨
      st.op = SEMIHOSTING_SYS_WRITE0 then
    if st.redirectCfg = RedirectCfg.cfgStdio then false
    else if st.op = SEMIHOSTING_SYS_READC then fd = st.stdinFd
    else fd = st.stdoutFd ∨ fd = st.stderrFd
  else if st.op = SEMIHOSTING_SYS_READ ∨ st.op = SEMIHOSTING_SYS_WRITE then
    if st.redirectCfg = RedirectCfg.cfgDebug then false
    else if st.op = SEMIHOSTING_SYS_READ then fd = st.stdinFd
    else fd = st.stdoutFd ∨ fd = st.stderrFd
  else false

/-- The `open_gdb_modeflags` table (GDB remote-protocol open flags). -/
def open_gdb_modeflags (m : Nat) : Nat :=
  [0x000, 0x000, 0x002, 0x002, 0x601, 0x601, 0x602, 0x602,
   0x209, 0x209, 0x20A, 0x20A].getD m 0

/-- Construction of the file name used by OPEN: the bytes read from target
memory, prefixed by `basedir` whenever it is a non-empty string, with a
slash inserted when `basedir` does not already end in one (lines 921-937 of
semihosting_common.c).  There is no check whether `name` is absolute. -/
def joinBasedir : Option String → String → String
  | none, name => name
  | some b, name =>
      if b.length = 0 then name
      else (if b.back = '/' then b else b ++ "/") ++ name

/-! ### Per-opcode handlers

Each handler is the straight-line translation of one `case` arm of the big
`switch` in `semihosting_common` (semihosting_common.c, lines 401-1640). -/

/-- SYS_CLOCK (0x10). -/
def hClock (st : SemiState) (env : HostEnv) : CoreOut :=
  .done { st with result := env.clockDelta } []

/-- SYS_CLOSE (0x02): fd 0, 1, 2 silently succeed, protecting the host
stdio streams; otherwise close on the host or publish a fileio request. -/
def hClose (st : SemiState) (env : HostEnv) : CoreOut :=
  if ¬env.readFieldsOk then .early env.memErrCode st []
  else
    let fd := toInt32 (getField st env 0)
    if fd = 0 ∨ fd = 1 ∨ fd = 2 then .done { st with result := 0 } []
    else if st.isFileio then
      .done { st with hitFileio := true,
                      fileio := { identifier := "close", p1 := getField st env 0 } }
        [.fileioPublish "close"]
    else
      let r := env.hostCloseRes
      .done { st with result := r,
                      sysErrno := if r = -1 then env.hostErrno else st.sysErrno }
        [.close fd]

/-- SYS_ERRNO (0x13). -/
def hErrno (st : SemiState) (_env : HostEnv) : CoreOut :=
  .done { st with result := st.sysErrno } []

/-- Common tail of SYS_EXIT / SYS_EXIT_EXTENDED: when resumable exit is not
configured, clear `is_resumable` and return the status of the HALTED event
callbacks. -/
def exitTail (st : SemiState) (env : HostEnv) (acts : List HostAct) : CoreOut :=
  if ¬st.hasResumableExit then
    .early env.eventCallbacksRes { st with isResumable := false } (acts ++ [.haltEvent])
  else .done st acts

/-- SYS_EXIT (0x18). -/
def hExit (st : SemiState) (env : HostEnv) : CoreOut :=
  if st.wordSizeBytes = 8 then
    if ¬env.readFieldsOk then .early env.memErrCode st []
    else
      let ty := toInt32 (getField st env 0)
      let code := toInt32 (getField st env 1)
      if ty = (ADP_STOPPED_APPLICATION_EXIT : Int) ∧ env.gdbConnections = 0 then
        .exited code st []
      else exitTail st env []
  else
    if st.param = ADP_STOPPED_APPLICATION_EXIT then
      if env.gdbConnections = 0 then .exited 0 st [] else exitTail st env []
    else if st.param = ADP_STOPPED_RUN_TIME_ERROR then
      if env.gdbConnections = 0 then .exited 1 st [] else exitTail st env []
    else
      if env.gdbConnections = 0 then .exited 1 st [] else exitTail st env []

/-- SYS_EXIT_EXTENDED (0x20). -/
def hExitExtended (st : SemiState) (env : HostEnv) : CoreOut :=
  if ¬env.readFieldsOk then .early env.memErrCode st []
  else
    let ty := toInt32 (getField st env 0)
    let code := toInt32 (getField st env 1)
    if ty = (ADP_STOPPED_APPLICATION_EXIT : Int) ∧ env.gdbConnections = 0 then
      .exited code st []
    else exitTail st env []

/-- SYS_FLEN (0x0C).  Note: in fileio mode the code stores -1/EINVAL but
then falls through and performs the host `fstat` anyway, overwriting the
result (semihosting_common.c lines 687-706: the `if` has no early exit). -/
def hFlen (st : SemiState) (env : HostEnv) : CoreOut :=
  let st := if st.isFileio then { st with result := -1, sysErrno := EINVAL } else st
  if ¬env.readFieldsOk then .early env.memErrCode st []
  else
    let fd := toInt32 (getField st env 0)
    if ¬env.fstatOk then
      .done { st with result := -1, sysErrno := env.hostErrno } [.fstat fd]
    else .done { st with result := env.fstatSize } [.fstat fd]

/-- SYS_GET_CMDLINE (0x15). -/
def hGetCmdline (st : SemiState) (env : HostEnv) : CoreOut :=
  if ¬env.readFieldsOk then .early env.memErrCode st []
  else
    let size := getField st env 1
    let arg := st.cmdline.getD ""
    let len := arg.length + 1
    if len > size then .done { st with result := -1 } []
    else if ¬env.writeBufOk then .early env.memErrCode st []
    else if ¬env.writeFieldsOk then .early env.memErrCode { st with result := 0 } []
    else .done { st with result := 0 } []

/-- SYS_HEAPINFO (0x16): writes four zero words ("we have no idea"). -/
def hHeapinfo (st : SemiState) (env : HostEnv) : CoreOut :=
  if ¬env.readFieldsOk then .early env.memErrCode st []
  else if ¬env.writeBufOk then .early env.memErrCode st []
  else .done { st with result := 0 } []

/-- SYS_ISERROR (0x08). -/
def hIserror (st : SemiState) (env : HostEnv) : CoreOut :=
  if ¬env.readFieldsOk then .early env.memErrCode st []
  else
    let code := getField st env 0
    .done { st with result := if code ≠ 0 then 1 else 0 } []

/-- SYS_ISTTY (0x09). -/
def hIstty (st : SemiState) (env : HostEnv) : CoreOut :=
  if st.isFileio then
    .done { st with hitFileio := true,
                    fileio := { identifier := "isatty", p1 := st.param } }
      [.fileioPublish "isatty"]
  else if ¬env.readFieldsOk then .early env.memErrCode st []
  else
    let fd := toInt32 (getField st env 0)
    let r : Int := if env.isattyRes then 1 else 0
    .done { st with result := r,
                    sysErrno := if r = 0 then env.hostErrno else st.sysErrno }
      [.isattyCall fd]

/-- SYS_OPEN (0x01). -/
def hOpen (st : SemiState) (env : HostEnv) : CoreOut :=
  if ¬env.readFieldsOk then .early env.memErrCode st []
  else
    let addr := getField st env 0
    let mode := u64ToU32 (getField st env 1)
    let len := getField st env 2
    if mode > 11 then .done { st with result := -1, sysErrno := EINVAL } []
    else if ¬env.mallocOk then .done { st with result := -1, sysErrno := ENOMEM } []
    else if ¬env.readBufOk then .early env.memErrCode st []
    else
      let fn := joinBasedir st.basedir env.memName
      if st.isFileio then
        if fn = ":semihosting-features" then
          .done { st with result := -1, sysErrno := EINVAL } []
        else if fn = ":tt" then
          if mode = 0 then .done { st with result := 0 } []
          else if mode = 4 then .done { st with result := 1 } []
          else if mode = 8 then .done { st with result := 2 } []
          else .done { st with result := -1, sysErrno := EINVAL } []
        else
          .done { st with hitFileio := true,
                          fileio := { identifier := "open", p1 := addr, p2 := len,
                                      p3 := open_gdb_modeflags mode, p4 := 0o644 } }
            [.fileioPublish "open"]
      else
        if fn = ":tt" then
          let fd := env.dupRes
          let st2 :=
            if mode < 4 then { st with stdinFd := fd }
            else if mode < 8 then { st with stdoutFd := fd }
            else { st with stderrFd := fd }
          .done { st2 with result := fd,
                           sysErrno := if fd = -1 then env.hostErrno else st2.sysErrno }
            [.dup mode]
        else
          let r := env.hostOpenRes
          .done { st with result := r,
                          sysErrno := if r = -1 then env.hostErrno else st.sysErrno }
            [.openFile fn mode]

/-- `semihosting_read` (host read or TCP redirect), as used by SYS_READ.
Returns the transfer count, the updated state and the actions. -/
def semiRead (st : SemiState) (env : HostEnv) (fd : Int) (size : Nat) :
    Int × SemiState × List HostAct :=
  if isRedirected st fd then
    if ¬st.tcpConnection then (-1, { st with sysErrno := EBADF }, [])
    else (env.connReadRes, st, [.connRead size])
  else
    let r := env.hostReadRes
    (r, { st with sysErrno := if r = -1 then env.hostErrno else st.sysErrno },
     [.readCall fd size])

/-- `semihosting_write` (host write or TCP redirect), as used by SYS_WRITE. -/
def semiWrite (st : SemiState) (env : HostEnv) (fd : Int) (size : Nat) :
    Int × SemiState × List HostAct :=
  if isRedirected st fd then
    if ¬st.tcpConnection then (-1, { st with sysErrno := EBADF }, [])
    else (env.connWriteRes, st, [.connWrite size])
  else
    let r := env.hostWriteRes
    (r, { st with sysErrno := if r = -1 then env.hostErrno else st.sysErrno },
     [.writeCall fd size])

/-- SYS_READ (0x06): result is the number of bytes NOT read. -/
def hRead (st : SemiState) (env : HostEnv) : CoreOut :=
  if ¬env.readFieldsOk then .early env.memErrCode st []
  else
    let fd := toInt32 (getField st env 0)
    let addr := getField st env 1
    let len := getField st env 2
    if st.isFileio then
      .done { st with hitFileio := true,
                      fileio := { identifier := "read", p1 := getField st env 0,
                                  p2 := addr, p3 := len } }
        [.fileioPublish "read"]
    else if ¬env.mallocOk then .done { st with result := -1, sysErrno := ENOMEM } []
    else
      let (r, st2, acts) := semiRead st env fd len
      let st3 := { st2 with result := r }
      if 0 ≤ r then
        if ¬env.writeBufOk then .early env.memErrCode st3 acts
        else .done { st3 with result := (len : Int) - r } acts
      else .done st3 acts

/-- SYS_READC (0x07): rejected in fileio mode; otherwise one byte from the
semihosting stdin (host or redirect). -/
def hReadc (st : SemiState) (env : HostEnv) : CoreOut :=
  if st.isFileio then .early ERROR_FAIL st []
  else if isRedirected st st.stdinFd then
    if ¬st.tcpConnection then .done { st with sysErrno := EBADF, result := -1 } []
    else if 0 < env.connReadRes then
      .done { st with result := (env.readByte : Int) } [.connRead 1]
    else .done { st with result := -1 } [.connRead 1]
  else .done { st with result := env.getcharRes } [.getcharCall]

/-- SYS_REMOVE (0x0E). -/
def hRemove (st : SemiState) (env : HostEnv) : CoreOut :=
  if ¬env.readFieldsOk then .early env.memErrCode st []
  else
    let addr := getField st env 0
    let len := getField st env 1
    if st.isFileio then
      .done { st with hitFileio := true,
                      fileio := { identifier := "unlink", p1 := addr, p2 := len } }
        [.fileioPublish "unlink"]
    else if ¬env.mallocOk then .done { st with result := -1, sysErrno := ENOMEM } []
    else if ¬env.readBufOk then .early env.memErrCode st []
    else
      let r := env.removeRes
      .done { st with result := r,
                      sysErrno := if r = -1 then env.hostErrno else st.sysErrno }
        [.removeCall env.memName]

/-- SYS_RENAME (0x0F): note the error classification is `result != 0`. -/
def hRename (st : SemiState) (env : HostEnv) : CoreOut :=
  if ¬env.readFieldsOk then .early env.memErrCode st []
  else
    let addr1 := getField st env 0
    let len1 := getField st env 1
    let addr2 := getField st env 2
    let len2 := getField st env 3
    if st.isFileio then
      .done { st with hitFileio := true,
                      fileio := { identifier := "rename", p1 := addr1, p2 := len1,
                                  p3 := addr2, p4 := len2 } }
        [.fileioPublish "rename"]
    else if ¬env.mallocOk then .done { st with result := -1, sysErrno := ENOMEM } []
    else if ¬env.readBufOk then .early env.memErrCode st []
    else
      let r := env.renameRes
      .done { st with result := r,
                      sysErrno := if r ≠ 0 then env.hostErrno else st.sysErrno }
        [.renameCall env.memName env.memName]

/-- SYS_SEEK (0x0A): absolute seek; a successful seek reports 0. -/
def hSeek (st : SemiState) (env : HostEnv) : CoreOut :=
  if ¬env.readFieldsOk then .early env.memErrCode st []
  else
    let fd := toInt32 (getField st env 0)
    let pos := toInt64 (getField st env 1)
    if st.isFileio then
      .done { st with hitFileio := true,
                      fileio := { identifier := "lseek", p1 := getField st env 0,
                                  p2 := getField st env 1 } }
        [.fileioPublish "lseek"]
    else
      let r := env.lseekRes
      let st2 := { st with result := r,
                           sysErrno := if r = -1 then env.hostErrno else st.sysErrno }
      if r = pos then .done { st2 with result := 0 } [.lseekCall fd pos]
      else .done st2 [.lseekCall fd pos]

/-- SYS_SYSTEM (0x12). -/
def hSystem (st : SemiState) (env : HostEnv) : CoreOut :=
  if ¬env.readFieldsOk then .early env.memErrCode st []
  else
    let addr := getField st env 0
    let len := getField st env 1
    if st.isFileio then
      .done { st with hitFileio := true,
                      fileio := { identifier := "system", p1 := addr, p2 := len } }
        [.fileioPublish "system"]
    else if ¬env.mallocOk then .done { st with result := -1, sysErrno := ENOMEM } []
    else if ¬env.readBufOk then .early env.memErrCode st []
    else .done { st with result := env.systemRes } [.systemCall env.memName]

/-- SYS_TIME (0x11). -/
def hTime (st : SemiState) (env : HostEnv) : CoreOut :=
  .done { st with result := env.timeNow } []

/-- SYS_WRITE (0x05): result is the number of bytes NOT written. -/
def hWrite (st : SemiState) (env : HostEnv) : CoreOut :=
  if ¬env.readFieldsOk then .early env.memErrCode st []
  else
    let fd := toInt32 (getField st env 0)
    let addr := getField st env 1
    let len := getField st env 2
    if st.isFileio then
      .done { st with hitFileio := true,
                      fileio := { identifier := "write", p1 := getField st env 0,
                                  p2 := addr, p3 := len } }
        [.fileioPublish "write"]
    else if ¬env.mallocOk then .done { st with result := -1, sysErrno := ENOMEM } []
    else if ¬env.readBufOk then .early env.memErrCode st []
    else
      let (r, st2, acts) := semiWrite st env fd len
      let st3 := { st2 with result := r }
      if 0 ≤ r then .done { st3 with result := (len : Int) - r } acts
      else .done st3 acts

/-- SYS_WRITEC (0x03). -/
def hWritec (st : SemiState) (env : HostEnv) : CoreOut :=
  if st.isFileio then
    .done { st with hitFileio := true,
                    fileio := { identifier := "write", p1 := 1, p2 := st.param, p3 := 1 } }
      [.fileioPublish "write"]
  else if ¬env.readBufOk then .early env.memErrCode st []
  else if isRedirected st st.stdoutFd then
    if ¬st.tcpConnection then
      .done { st with sysErrno := EBADF, result := 0 } []
    else .done { st with result := 0 } [.connWrite 1]
  else .done { st with result := 0 } [.putcharCall]

/-- SYS_WRITE0 (0x04): a NUL-terminated string, one byte at a time. -/
def hWrite0 (st : SemiState) (env : HostEnv) : CoreOut :=
  if st.isFileio then
    if ¬env.readBufOk then .early env.memErrCode st []
    else
      .done { st with hitFileio := true,
                      fileio := { identifier := "write", p1 := 1, p2 := st.param,
                                  p3 := env.memBytes.length } }
        [.fileioPublish "write"]
  else if ¬env.readBufOk then .early env.memErrCode st []
  else
    let n := env.memBytes.length
    if isRedirected st st.stdoutFd then
      if ¬st.tcpConnection then
        let st2 := if n = 0 then st else { st with sysErrno := EBADF }
        .done { st2 with result := 0 } []
      else .done { st with result := 0 } (List.replicate n (HostAct.connWrite 1))
    else .done { st with result := 0 } (List.replicate n HostAct.putcharCall)

/-- The TCL event path of a user-defined operation (reads the parameter
string, fires the target event, sets result 0). -/
def hUserCmdTcl (st : SemiState) (env : HostEnv) (acts : List HostAct) : CoreOut :=
  if ¬env.readFieldsOk then .early env.memErrCode st acts
  else
    let len := getField st env 1
    if len > SEMIHOSTING_MAX_TCL_COMMAND_FIELD_LENGTH then .early ERROR_FAIL st acts
    else if ¬env.mallocOk then .early ERROR_FAIL st acts
    else if ¬env.readBufOk then .early env.memErrCode st acts
    else .done { st with result := 0 } (acts ++ [.userEvent st.op])

/-- User-defined operations 0x100-0x107. -/
def hUserCmd (st : SemiState) (env : HostEnv) : CoreOut :=
  match env.userCmdExtRes with
  | some r =>
      if r ≠ ERROR_NOT_IMPLEMENTED then .done st [.userExt]
      else hUserCmdTcl st env [.userExt]
  | none => hUserCmdTcl st env []

/-- ELAPSED, TICKFREQ, TMPNAM and any unknown opcode. -/
def hDefault (st : SemiState) (_env : HostEnv) : CoreOut :=
  .done { st with result := -1, sysErrno := ENOTSUP } []

/-- The `switch (semihosting->op)` of `semihosting_common`. -/
def dispatchCore (st : SemiState) (env : HostEnv) : CoreOut :=
  if st.op = SEMIHOSTING_SYS_CLOCK then hClock st env
  else if st.op = SEMIHOSTING_SYS_CLOSE then hClose st env
  else if st.op = SEMIHOSTING_SYS_ERRNO then hErrno st env
  else if st.op = SEMIHOSTING_SYS_EXIT then hExit st env
  else if st.op = SEMIHOSTING_SYS_EXIT_EXTENDED then hExitExtended st env
  else if st.op = SEMIHOSTING_SYS_FLEN then hFlen st env
  else if st.op = SEMIHOSTING_SYS_GET_CMDLINE then hGetCmdline st env
  else if st.op = SEMIHOSTING_SYS_HEAPINFO then hHeapinfo st env
  else if st.op = SEMIHOSTING_SYS_ISERROR then hIserror st env
  else if st.op = SEMIHOSTING_SYS_ISTTY then hIstty st env
  else if st.op = SEMIHOSTING_SYS_OPEN then hOpen st env
  else if st.op = SEMIHOSTING_SYS_READ then hRead st env
  else if st.op = SEMIHOSTING_SYS_READC then hReadc st env
  else if st.op = SEMIHOSTING_SYS_REMOVE then hRemove st env
  else if st.op = SEMIHOSTING_SYS_RENAME then hRename st env
  else if st.op = SEMIHOSTING_SYS_SEEK then hSeek st env
  else if st.op = SEMIHOSTING_SYS_SYSTEM then hSystem st env
  else if st.op = SEMIHOSTING_SYS_TIME then hTime st env
  else if st.op = SEMIHOSTING_SYS_WRITE then hWrite st env
  else if st.op = SEMIHOSTING_SYS_WRITEC then hWritec st env
  else if st.op = SEMIHOSTING_SYS_WRITE0 then hWrite0 st env
  else if SEMIHOSTING_USER_CMD_0X100 ≤ st.op ∧ st.op ≤ SEMIHOSTING_USER_CMD_0X107 then
    hUserCmd st env
  else hDefault st env

/-- The state seen by every handler: `semihosting_common` stores -1 into
`result` and `true` into `is_resumable` before the `switch` runs. -/
def prepState (st : SemiState) : SemiState :=
  { st with result := -1, isResumable := true }

/-- `semihosting_common`: prologue, handler, epilogue.  When the handler
falls through without hitting fileio, `post_result` is invoked exactly
once. -/
def dispatch (st : SemiState) (env : HostEnv) : DispatchOut :=
  match dispatchCore (prepState st) env with
  | .done st2 acts =>
      if st2.hitFileio then .ret ERROR_OK st2 acts
      else if env.postResultRes = ERROR_OK then .ret ERROR_OK st2 (acts ++ [.postResult])
      else .ret env.postResultRes st2 (acts ++ [.postResult])
  | .early s st2 acts => .ret s st2 acts
  | .exited c st2 acts => .exited c st2 acts

/-- True when the dispatcher takes a `return` inside the switch (or the
process exits), bypassing the common `post_result` epilogue. -/
def earlyReturn (st : SemiState) (env : HostEnv) : Bool :=
  match dispatchCore (prepState st) env with
  | .done _ _ => false
  | .early _ _ _ => true
  | .exited _ _ _ => true

/-- `semihosting_common_fileio_end`: stores the frontend result, munges it
for READ/WRITE/SEEK, classifies failure per opcode and calls
`post_result`. -/
def fileioEnd (st : SemiState) (result fileioErrno : Int) (_ctrlC : Bool) :
    SemiState × List HostAct :=
  let st1 := { st with hitFileio := false, result := result }
  let st2 :=
    if st1.op = SEMIHOSTING_SYS_WRITE ∨ st1.op = SEMIHOSTING_SYS_READ then
      if result < 0 then { st1 with result := (st1.fileio.p3 : Int) }
      else { st1 with result := (st1.fileio.p3 : Int) - result }
    else if st1.op = SEMIHOSTING_SYS_SEEK then
      if 0 < result then { st1 with result := 0 } else st1
    else st1
  let failed :=
    if st2.op = SEMIHOSTING_SYS_ISTTY then st2.result = 0
    else if st2.op = SEMIHOSTING_SYS_RENAME then st2.result ≠ 0
    else st2.result = -1
  let st3 := if failed then { st2 with sysErrno := fileioErrno } else st2
  (st3, [.postResult])

/-! ### TPIU/SWO controller (arm_tpiu_swo.c)

The instance object mirrors `struct arm_tpiu_swo_object`; the environment
records the outcome of every external call made by the enable/disable
handlers (AP resolution, register accesses through `wrap_read_u32` /
`wrap_write_u32`, the trace adapter, services, files, event hooks). -/

abbrev TPIU_SSPSR_OFFSET : Nat := 0x000

abbrev TPIU_CSPSR_OFFSET : Nat := 0x004

abbrev TPIU_ACPR_OFFSET : Nat := 0x010

abbrev TPIU_SPPR_OFFSET : Nat := 0x0F0

abbrev TPIU_FFCR_OFFSET : Nat := 0x304

abbrev TPIU_DEVID_OFFSET : Nat := 0xFC8

abbrev TPIU_ACPR_MAX_PRESCALER : Nat := 0x1FFF

/-- Pin-protocol encodings (values of `TPIU_PIN_PROTOCOL_...`, written
verbatim into SPPR). -/
abbrev TPIU_PROTOCOL_SYNC : Nat := 0

abbrev TPIU_PROTOCOL_MANCHESTER : Nat := 1

abbrev TPIU_PROTOCOL_UART : Nat := 2

inductive TEvent where
  | preEnable
  | postEnable
  | preDisable
  | postDisable
deriving DecidableEq, Repr

/-- Mirror of `struct arm_tpiu_swo_object` (the four `has...` booleans
stand for the presence of an `event_action` entry for that event). -/
structure TpiuObj where
  name : String := "tpiu"
  spotApNum : Nat := 0
  enabled : Bool := false
  enCapture : Bool := false
  deferredEnable : Bool := false
  recheckApCurTarget : Bool := false
  portWidth : Nat := 1
  pinProtocol : Nat := TPIU_PROTOCOL_SYNC
  enFormatter : Bool := false
  traceclkinFreq : Nat := 0
  swoPinFreq : Nat := 0
  outFilename : String := "external"
  /-- Whether `obj->file` is non-NULL. -/
  fileOpen : Bool := false
  /-- Whether `obj->ap` is non-NULL. -/
  apHeld : Bool := false
  hasPreEnable : Bool := false
  hasPostEnable : Bool := false
  hasPreDisable : Bool := false
  hasPostDisable : Bool := false
deriving DecidableEq, Repr

/-- Oracle for the external calls of the TPIU handlers. -/
structure TpiuEnv where
  isConfigMode : Bool := false
  transportHla : Bool := false
  recheckOk : Bool := true
  recheckApNum : Nat := 0
  apGetOk : Bool := true
  preEnableOk : Bool := true
  postEnableOk : Bool := true
  preDisableOk : Bool := true
  postDisableOk : Bool := true
  devidReadOk : Bool := true
  devid : Nat := 0
  sspsrReadOk : Bool := true
  sspsr : Nat := 0
  mallocOk : Bool := true
  addServiceOk : Bool := true
  fopenOk : Bool := true
  configTraceOk : Bool := true
  /-- Value of the in/out pin-frequency argument after
  `adapter_config_trace(true, ...)` returns. -/
  adapterFreq : Nat := 0
  configTraceStopOk : Bool := true
  writeCspsrOk : Bool := true
  writeAcprOk : Bool := true
  writeSpprOk : Bool := true
  readFfcrOk : Bool := true
  ffcrVal : Nat := 0
  writeFfcrOk : Bool := true

/-- Externally visible effects of the TPIU handlers, in order. -/
inductive TAct where
  | hookRun (e : TEvent)
  | apGet
  | apPut
  | regRead (off : Nat)
  | regWrite (off : Nat) (val : Nat)
  | addService
  | removeService
  | openTraceFile
  | closeTraceFile
  | registerTimer
  | unregisterTimer
  | configTrace (en : Bool)
  | traceConfigEvent
  | freeObj (name : String)
deriving DecidableEq, Repr

structure EnableOut where
  status : Int
  obj : TpiuObj
  acts : List TAct
deriving DecidableEq, Repr

def uartOrManch (proto : Nat) : Bool :=
  proto = TPIU_PROTOCOL_MANCHESTER ∨ proto = TPIU_PROTOCOL_UART

def TpiuObj.hasEvAction (obj : TpiuObj) : TEvent → Bool
  | .preEnable => obj.hasPreEnable
  | .postEnable => obj.hasPostEnable
  | .preDisable => obj.hasPreDisable
  | .postDisable => obj.hasPostDisable

def TpiuEnv.evOk (env : TpiuEnv) : TEvent → Bool
  | .preEnable => env.preEnableOk
  | .postEnable => env.postEnableOk
  | .preDisable => env.preDisableOk
  | .postDisable => env.postDisableOk

/-- `arm_tpiu_swo_handle_event`, success side: runs the bound script body
when one exists (first matching entry only); succeeds when there is none. -/
def handleEventOk (obj : TpiuObj) (env : TpiuEnv) (e : TEvent) : Bool :=
  if obj.hasEvAction e then env.evOk e else true

/-- `arm_tpiu_swo_handle_event`, action side: the hook invocation, when an
action is bound to the event. -/
def handleEventActs (obj : TpiuObj) (e : TEvent) : List TAct :=
  if obj.hasEvAction e then [.hookRun e] else []

/-- `arm_tpiu_swo_close_output`, state side: `obj->file` is NULLed. -/
def closeOutputObj (obj : TpiuObj) : TpiuObj := { obj with fileOpen := false }

/-- `arm_tpiu_swo_close_output`, action side: closes the sink file when
open and removes the broadcast TCP service when the output is a `:port`. -/
def closeOutputActs (obj : TpiuObj) : List TAct :=
  (if obj.fileOpen then ([TAct.closeTraceFile] : List TAct) else []) ++
    (if obj.outFilename.front = ':' then [TAct.removeService] else [])

/-- The prescaler computed on the `output=external` + UART/MANCHESTER path
of `handle_arm_tpiu_swo_enable` (lines 780-784): a rounded division in
32-bit unsigned arithmetic, truncated by the `uint16_t prescaler` variable
and then clamped to `TPIU_ACPR_MAX_PRESCALER`. -/
def tpiuExternalPrescaler (tc sw : Nat) : Nat :=
  let p0 := ((tc + sw / 2) % 4294967296 / sw) % 65536
  if p0 > TPIU_ACPR_MAX_PRESCALER then TPIU_ACPR_MAX_PRESCALER else p0

/-- The prescaler as the specification words it: `round(traceclkin /
swo_pin_freq)` clamped to the maximum, with no 16-bit truncation.
Modelled from the spec for comparison with `tpiuExternalPrescaler`. -/
def specPrescaler (tc sw : Nat) : Nat :=
  min ((tc + sw / 2) / sw) TPIU_ACPR_MAX_PRESCALER

/-- Outcome of the sink-setup / adapter-start phase of enable
(lines 729-789).  `proceed = false` means the handler returned from inside
this phase (those paths do NOT run the `error_exit` teardown). -/
structure SinkOut where
  status : Int
  obj : TpiuObj
  acts : List TAct
  prescaler : Nat
  proceed : Bool
deriving DecidableEq, Repr

/-- `adapter_config_trace(true, ...)`, the pin-frequency check and the
periodic poll timer registration (lines 752-779), entered after a
successful sink creation with `acts` accumulated so far. -/
def sinkAdapter (obj : TpiuObj) (env : TpiuEnv) (acts : List TAct) : SinkOut :=
  if ¬env.configTraceOk then
    ⟨ERROR_FAIL, closeOutputObj obj,
     acts ++ [TAct.configTrace true] ++ closeOutputActs obj, 1, false⟩
  else if uartOrManch obj.pinProtocol ∧ env.adapterFreq = 0 then
    ⟨ERROR_FAIL, closeOutputObj obj,
     acts ++ [TAct.configTrace true] ++ closeOutputActs obj, 1, false⟩
  else
    ⟨ERROR_OK,
     { obj with swoPinFreq := env.adapterFreq, enCapture := true },
     acts ++ [TAct.configTrace true, TAct.registerTimer], 1, true⟩

def sinkPhase (obj : TpiuObj) (env : TpiuEnv) : SinkOut :=
  if obj.outFilename = "external" then
    if uartOrManch obj.pinProtocol then
      let p := tpiuExternalPrescaler obj.traceclkinFreq obj.swoPinFreq
      ⟨ERROR_OK, { obj with swoPinFreq := obj.traceclkinFreq / p }, [], p, true⟩
    else ⟨ERROR_OK, obj, [], 1, true⟩
  else
    -- sink creation: TCP broadcast service or append-binary file
    if obj.outFilename.front = ':' then
      if ¬env.mallocOk then ⟨ERROR_FAIL, obj, [], 1, false⟩
      else if ¬env.addServiceOk then ⟨ERROR_FAIL, obj, [], 1, false⟩
      else sinkAdapter obj env [TAct.addService]
    else if obj.outFilename ≠ "-" then
      if ¬env.fopenOk then ⟨ERROR_FAIL, obj, [], 1, false⟩
      else sinkAdapter { obj with fileOpen := true } env [TAct.openTraceFile]
    else sinkAdapter obj env []

/-- TPIU register programming and POST_ENABLE hook (lines 791-823).  A
failure here goes to the `error_exit` teardown in `enable`. -/
def regsPhase (obj : TpiuObj) (env : TpiuEnv) (prescaler : Nat) : EnableOut :=
  let a1 := [TAct.regWrite TPIU_CSPSR_OFFSET (2 ^ (obj.portWidth - 1) % 4294967296)]
  if ¬env.writeCspsrOk then ⟨ERROR_FAIL, obj, a1⟩
  else
    -- ACPR gets `prescaler - 1` where `prescaler` is a uint16_t
    let a2 := a1 ++ [TAct.regWrite TPIU_ACPR_OFFSET ((prescaler + 65535) % 65536)]
    if ¬env.writeAcprOk then ⟨ERROR_FAIL, obj, a2⟩
    else
      let a3 := a2 ++ [TAct.regWrite TPIU_SPPR_OFFSET obj.pinProtocol]
      if ¬env.writeSpprOk then ⟨ERROR_FAIL, obj, a3⟩
      else
        let a4 := a3 ++ [TAct.regRead TPIU_FFCR_OFFSET]
        if ¬env.readFfcrOk then ⟨ERROR_FAIL, obj, a4⟩
        else
          let ffcrNew :=
            if obj.enFormatter then env.ffcrVal ||| 2 else env.ffcrVal &&& 4294967293
          let a5 := a4 ++ [TAct.regWrite TPIU_FFCR_OFFSET ffcrNew]
          if ¬env.writeFfcrOk then ⟨ERROR_FAIL, obj, a5⟩
          else if ¬handleEventOk obj env TEvent.postEnable then
            ⟨ERROR_FAIL, obj, a5 ++ handleEventActs obj TEvent.postEnable⟩
          else
            ⟨ERROR_OK, { obj with enabled := true },
             a5 ++ handleEventActs obj TEvent.postEnable ++ [TAct.traceConfigEvent]⟩

/-- Protocol capability test against TPIU_DEVID (lines 695-707). -/
def protoSupported (proto devid : Nat) : Bool :=
  if proto = TPIU_PROTOCOL_SYNC then ¬devid.testBit 9
  else if proto = TPIU_PROTOCOL_UART then devid.testBit 11
  else if proto = TPIU_PROTOCOL_MANCHESTER then devid.testBit 10
  else false

/-- Tail of the enable state machine from the sink setup on (lines
729-839), with the validation steps already performed and their actions in
`acts2`: sink + adapter phase, register programming, and — on a register
or post-hook failure with capture running — the `error_exit` teardown. -/
def enableSink (obj2 : TpiuObj) (env : TpiuEnv) (acts2 : List TAct) : EnableOut :=
  if ¬(sinkPhase obj2 env).proceed then
    ⟨(sinkPhase obj2 env).status, (sinkPhase obj2 env).obj,
     acts2 ++ (sinkPhase obj2 env).acts⟩
  else if (regsPhase (sinkPhase obj2 env).obj env (sinkPhase obj2 env).prescaler).status
      = ERROR_OK then
    ⟨ERROR_OK,
     (regsPhase (sinkPhase obj2 env).obj env (sinkPhase obj2 env).prescaler).obj,
     acts2 ++ (sinkPhase obj2 env).acts ++
       (regsPhase (sinkPhase obj2 env).obj env (sinkPhase obj2 env).prescaler).acts⟩
  else if (regsPhase (sinkPhase obj2 env).obj env
      (sinkPhase obj2 env).prescaler).obj.enCapture then
    -- error_exit with capture running: close sinks, stop timer, stop trace
    ⟨(regsPhase (sinkPhase obj2 env).obj env (sinkPhase obj2 env).prescaler).status,
     closeOutputObj
       { (regsPhase (sinkPhase obj2 env).obj env (sinkPhase obj2 env).prescaler).obj
           with enCapture := false },
     acts2 ++ (sinkPhase obj2 env).acts ++
       (regsPhase (sinkPhase obj2 env).obj env (sinkPhase obj2 env).prescaler).acts ++
       closeOutputActs
         { (regsPhase (sinkPhase obj2 env).obj env (sinkPhase obj2 env).prescaler).obj
             with enCapture := false } ++
       [TAct.unregisterTimer, TAct.configTrace false]⟩
  else
    ⟨(regsPhase (sinkPhase obj2 env).obj env (sinkPhase obj2 env).prescaler).status,
     (regsPhase (sinkPhase obj2 env).obj env (sinkPhase obj2 env).prescaler).obj,
     acts2 ++ (sinkPhase obj2 env).acts ++
       (regsPhase (sinkPhase obj2 env).obj env (sinkPhase obj2 env).prescaler).acts⟩

/-- DEVID capability check, SYNC port-width check (lines 690-724), then the
sink tail. -/
def enableDevid (obj2 : TpiuObj) (env : TpiuEnv) (acts1 : List TAct) : EnableOut :=
  if ¬env.devidReadOk then ⟨ERROR_FAIL, obj2, acts1⟩
  else if ¬protoSupported obj2.pinProtocol env.devid then ⟨ERROR_FAIL, obj2, acts1⟩
  else if obj2.pinProtocol = TPIU_PROTOCOL_SYNC then
    (if ¬env.sspsrReadOk then
      ⟨ERROR_FAIL, obj2, acts1 ++ [TAct.regRead TPIU_SSPSR_OFFSET]⟩
    else if ¬env.sspsr.testBit (obj2.portWidth - 1) then
      ⟨ERROR_FAIL, obj2, acts1 ++ [TAct.regRead TPIU_SSPSR_OFFSET]⟩
    else enableSink obj2 env (acts1 ++ [TAct.regRead TPIU_SSPSR_OFFSET]))
  else enableSink obj2 env acts1

/-- PRE_ENABLE hook (aborts the enable on failure, before any TPIU access),
then the DEVID read. -/
def enableHook (obj2 : TpiuObj) (env : TpiuEnv) (apActs : List TAct) : EnableOut :=
  if ¬handleEventOk obj2 env TEvent.preEnable then
    ⟨ERROR_FAIL, obj2, apActs ++ handleEventActs obj2 TEvent.preEnable⟩
  else
    enableDevid obj2 env
      (apActs ++ handleEventActs obj2 TEvent.preEnable ++
        [TAct.regRead TPIU_DEVID_OFFSET])

/-- Lazy AP resolution (kept across failures; released only at cleanup). -/
def enableAp (obj1 : TpiuObj) (env : TpiuEnv) : EnableOut :=
  if ¬obj1.apHeld ∧ ¬env.apGetOk then ⟨ERROR_FAIL, obj1, []⟩
  else
    enableHook { obj1 with apHeld := true } env
      (if obj1.apHeld then [] else [TAct.apGet])

/-- `handle_arm_tpiu_swo_enable`: the full enable state machine, including
the `error_exit` teardown of a partially performed enable. -/
def enable (obj0 : TpiuObj) (env : TpiuEnv) : EnableOut :=
  if env.isConfigMode then ⟨ERROR_OK, { obj0 with deferredEnable := true }, []⟩
  else if obj0.enabled then ⟨ERROR_OK, obj0, []⟩
  else if env.transportHla ∧ obj0.spotApNum ≠ 0 then ⟨ERROR_FAIL, obj0, []⟩
  else if obj0.traceclkinFreq = 0 then ⟨ERROR_FAIL, obj0, []⟩
  else if uartOrManch obj0.pinProtocol ∧ obj0.swoPinFreq = 0 ∧
      obj0.outFilename = "external" then ⟨ERROR_FAIL, obj0, []⟩
  else if obj0.recheckApCurTarget ∧ ¬env.recheckOk then ⟨ERROR_FAIL, obj0, []⟩
  else
    enableAp
      (if obj0.recheckApCurTarget then
        { obj0 with recheckApCurTarget := false, spotApNum := env.recheckApNum }
      else obj0) env

/-- Proof-side predicate: an action list that touches none of the
enable-path resources (no sink file, service, timer, AP-release or
config_trace actions). -/
def actsClean (l : List TAct) : Prop :=
  l.count TAct.openTraceFile = 0 ∧ l.count TAct.closeTraceFile = 0 ∧
  l.count TAct.addService = 0 ∧ l.count TAct.removeService = 0 ∧
  l.count TAct.registerTimer = 0 ∧ l.count TAct.unregisterTimer = 0 ∧
  TAct.apPut ∉ l ∧ TAct.configTrace false ∉ l ∧ TAct.configTrace true ∉ l

/-- Proof-side predicate: the post-condition of a FAILED enable: instance
disabled, sink file closed, capture off, acquisitions balanced by
releases, AP never released, and `config_trace(false)` called iff
`config_trace(true)` was called and succeeded and the pin frequency was
not rejected. -/
def cleanPost (pin : Nat) (env : TpiuEnv) (r : EnableOut) : Prop :=
  r.obj.enabled = false ∧
  r.obj.fileOpen = false ∧
  r.obj.enCapture = false ∧
  r.acts.count TAct.openTraceFile = r.acts.count TAct.closeTraceFile ∧
  r.acts.count TAct.addService = r.acts.count TAct.removeService ∧
  r.acts.count TAct.registerTimer = r.acts.count TAct.unregisterTimer ∧
  TAct.apPut ∉ r.acts ∧
  (TAct.configTrace false ∈ r.acts ↔
    (env.configTraceOk = true ∧ TAct.configTrace true ∈ r.acts ∧
      ¬(uartOrManch pin = true ∧ env.adapterFreq = 0)))

/-- `handle_arm_tpiu_swo_disable`.  Note that the results of both event
hooks are discarded (lines 853 and 869). -/
def tpiuDisable (obj0 : TpiuObj) (env : TpiuEnv) : EnableOut :=
  if ¬obj0.enabled then ⟨ERROR_OK, obj0, []⟩
  else
    -- the results of both hook invocations are discarded
    let obj1 := { obj0 with enabled := false }
    let preActs := handleEventActs obj1 TEvent.preDisable
    if obj1.enCapture then
      let obj2 := { obj1 with enCapture := false }
      let obj3 := closeOutputObj obj2
      let acts := preActs ++ closeOutputActs obj2 ++
        [TAct.unregisterTimer, TAct.configTrace false]
      if ¬env.configTraceStopOk then ⟨ERROR_FAIL, obj3, acts⟩
      else
        ⟨ERROR_OK, obj3,
         acts ++ handleEventActs obj3 TEvent.postDisable ++ [TAct.traceConfigEvent]⟩
    else
      ⟨ERROR_OK, obj1,
       preActs ++ handleEventActs obj1 TEvent.postDisable ++ [TAct.traceConfigEvent]⟩

/-- Actions performed for one registered object by
`arm_tpiu_swo_cleanup_all` (lines 213-244): hooks when still enabled,
close the output, stop a running capture, release the AP, free the
object.  The object is freed but NOT unlinked from `all_tpiu_swo`. -/
def cleanupObjActs (obj : TpiuObj) : List TAct :=
  (if obj.enabled ∧ obj.hasPreDisable then [TAct.hookRun TEvent.preDisable] else [])
    ++ closeOutputActs obj
    ++ (if obj.enCapture then [TAct.unregisterTimer, TAct.configTrace false] else [])
    ++ (if obj.enabled ∧ obj.hasPostDisable then [TAct.hookRun TEvent.postDisable] else [])
    ++ (if obj.apHeld then [TAct.apPut] else [])
    ++ [TAct.freeObj obj.name]

/-- The (freed) memory of one object after a cleanup pass: `close_output`
NULLed `obj->file`; `enabled`, `en_capture` and `ap` are left as they
were.  The registry keeps pointing at this memory. -/
def cleanupObjMem (obj : TpiuObj) : TpiuObj := { obj with fileOpen := false }

/-- `arm_tpiu_swo_cleanup_all`: walks the registry and tears every object
down.  The list nodes are freed but never removed from the global list, so
the function returns the registry contents that a subsequent traversal
would still see, together with the action trace. -/
def cleanupAll (objs : List TpiuObj) : List TpiuObj × List TAct :=
  (objs.map cleanupObjMem, objs.flatMap cleanupObjActs)

/-- Two successive invocations of `arm_tpiu_swo_cleanup_all`: the second
walks the same (freed, still linked) objects. -/
def cleanupTwice (objs : List TpiuObj) : List TpiuObj × List TAct :=
  let r1 := cleanupAll objs
  let r2 := cleanupAll r1.1
  (r2.1, r1.2 ++ r2.2)

/-! ### Concrete fixtures used by counterexamples and witnesses -/

/-- Host-mode READ whose host `read` fails. -/
def c1StHostRead : SemiState := { op := SEMIHOSTING_SYS_READ }

def c1EnvHostRead : HostEnv :=
  { fields := fun i => if i = 0 then 3 else if i = 1 then 4096 else 5,
    hostReadRes := -1, hostErrno := 5 }

/-- Fileio-mode WRITE of 5 bytes. -/
def c1StFileioWrite : SemiState := { op := SEMIHOSTING_SYS_WRITE, isFileio := true }

def c1EnvFileioWrite : HostEnv :=
  { fields := fun i => if i = 0 then 3 else if i = 1 then 4096 else 5 }

/-- Host-mode READ of 5 bytes where the host `read` returns 2. -/
def c1EnvPartial : HostEnv :=
  { fields := fun i => if i = 0 then 3 else if i = 1 then 4096 else 5,
    hostReadRes := 2 }

/-- Fileio-mode FLEN on fd 7; the host `fstat` succeeds with size 42. -/
def c2St : SemiState := { op := SEMIHOSTING_SYS_FLEN, isFileio := true }

def c2Env : HostEnv := { fields := fun _ => 7, fstatSize := 42 }

/-- Host-mode OPEN of ":tt" in mode 4 (write) with basedir "/b". -/
def c3St : SemiState := { op := SEMIHOSTING_SYS_OPEN, basedir := some "/b" }

def c3Env : HostEnv :=
  { fields := fun i => if i = 0 then 4096 else if i = 1 then 4 else 3,
    memName := ":tt", hostOpenRes := 7 }

/-- UART instance with `-output -` whose adapter accepts `config_trace`
but reports pin frequency 0. -/
def c4Obj : TpiuObj :=
  { pinProtocol := TPIU_PROTOCOL_UART, traceclkinFreq := 168000000,
    swoPinFreq := 2000000, outFilename := "-" }

def c4Env : TpiuEnv := { devid := 2048, adapterFreq := 0 }

/-- 32-bit EXIT with reason ADP_Stopped_ApplicationExit while a debugger
is connected and resumable exit is off. -/
def c6St : SemiState :=
  { op := SEMIHOSTING_SYS_EXIT, param := ADP_STOPPED_APPLICATION_EXIT }

def c6Env : HostEnv := { gdbConnections := 1 }

/-- External UART instance with a traceclk/pin-freq ratio of 65537, which
overflows the uint16_t prescaler. -/
def c7Obj : TpiuObj :=
  { pinProtocol := TPIU_PROTOCOL_UART, traceclkinFreq := 65537, swoPinFreq := 1 }

/-- External UART instance with the spec's concrete 168 MHz / 2 MHz pair. -/
def c7ObjGood : TpiuObj :=
  { pinProtocol := TPIU_PROTOCOL_UART, traceclkinFreq := 168000000,
    swoPinFreq := 2000000 }

def c7Env : TpiuEnv := { devid := 2048 }

/-- Enabled instance (no capture) with pre- and post-disable hooks; the
pre-disable hook fails. -/
def c8Obj : TpiuObj :=
  { enabled := true, hasPreDisable := true, hasPostDisable := true }

def c8Env : TpiuEnv := { preDisableOk := false }

/-- Enabled registered instance holding its AP. -/
def c9Obj : TpiuObj := { enabled := true, apHeld := true }

/-- Host-mode CLOSE of fd 1 under fileio and non-fileio (witness input). -/
def c5St : SemiState := { op := SEMIHOSTING_SYS_CLOSE, isFileio := true }

def c5Env : HostEnv := { fields := fun _ => 1 }

/-- Host-mode WRITE to the redirected stdout fd with no TCP client. -/
def c10St : SemiState :=
  { op := SEMIHOSTING_SYS_WRITE, redirectCfg := RedirectCfg.cfgAll, stdoutFd := 3 }

def c10Env : HostEnv :=
  { fields := fun i => if i = 0 then 3 else if i = 1 then 4096 else 5 }

/-! ## Helper lemmas

The prologue of `semihosting_common` only touches `result` and
`is_resumable`; every other field, and every derived reading of the state,
is unchanged.  Registered as simp lemmas so handler proofs can freely move
between `prepState st` and `st`. -/

@[simp] theorem prepState_op (st : SemiState) : (prepState st).op = st.op := rfl

@[simp] theorem prepState_isFileio (st : SemiState) :
    (prepState st).isFileio = st.isFileio := rfl

@[simp] theorem prepState_hitFileio (st : SemiState) :
    (prepState st).hitFileio = st.hitFileio := rfl

@[simp] theorem prepState_param (st : SemiState) :
    (prepState st).param = st.param := rfl

@[simp] theorem prepState_wordSizeBytes (st : SemiState) :
    (prepState st).wordSizeBytes = st.wordSizeBytes := rfl

@[simp] theorem prepState_sysErrno (st : SemiState) :
    (prepState st).sysErrno = st.sysErrno := rfl

@[simp] theorem prepState_tcpConnection (st : SemiState) :
    (prepState st).tcpConnection = st.tcpConnection := rfl

@[simp] theorem prepState_stdinFd (st : SemiState) :
    (prepState st).stdinFd = st.stdinFd := rfl

@[simp] theorem prepState_stdoutFd (st : SemiState) :
    (prepState st).stdoutFd = st.stdoutFd := rfl

@[simp] theorem prepState_stderrFd (st : SemiState) :
    (prepState st).stderrFd = st.stderrFd := rfl

@[simp] theorem prepState_basedir (st : SemiState) :
    (prepState st).basedir = st.basedir := rfl

@[simp] theorem prepState_cmdline (st : SemiState) :
    (prepState st).cmdline = st.cmdline := rfl

@[simp] theorem prepState_hasResumableExit (st : SemiState) :
    (prepState st).hasResumableExit = st.hasResumableExit := rfl

@[simp] theorem prepState_redirectCfg (st : SemiState) :
    (prepState st).redirectCfg = st.redirectCfg := rfl

@[simp] theorem getField_prepState (st : SemiState) (env : HostEnv) (i : Nat) :
    getField (prepState st) env i = getField st env i := rfl

@[simp] theorem isRedirected_prepState (st : SemiState) (fd : Int) :
    isRedirected (prepState st) fd = isRedirected st fd := rfl

/-! ## Theorems -/

/-- Claim C5: for every dispatched CLOSE (0x02) trap whose file-descriptor
field is 0, 1 or 2, dispatch sets result to 0 and neither calls the host
`close` nor publishes a fileio request, in both host and fileio mode. -/
theorem C5_close_protects_stdio (st : SemiState) (env : HostEnv)
    (hop : st.op = SEMIHOSTING_SYS_CLOSE)
    (hhf : st.hitFileio = false)
    (hrf : env.readFieldsOk = true)
    (hfd : toInt32 (getField st env 0) = 0 ∨ toInt32 (getField st env 0) = 1 ∨
      toInt32 (getField st env 0) = 2) :
    (dispatch st env).state.result = 0 ∧
    (dispatch st env).state.hitFileio = false ∧
    (∀ fd, HostAct.close fd ∉ (dispatch st env).acts) ∧
    (∀ s, HostAct.fileioPublish s ∉ (dispatch st env).acts) := by
  have hbr : dispatchCore (prepState st) env = hClose (prepState st) env := by
    unfold dispatchCore
    rw [prepState_op, hop]
    simp
  unfold dispatch
  rw [hbr]
  unfold hClose
  rw [getField_prepState]
  rcases hfd with h | h | h <;>
    simp [h, hrf, hhf, DispatchOut.state, DispatchOut.acts] <;>
    split_ifs <;>
    simp [DispatchOut.state, DispatchOut.acts]

/-- Witness for C5 at a concrete input: fd field 1, fileio mode. -/
theorem C5_close_protects_stdio_witness :
    (c5St.op = SEMIHOSTING_SYS_CLOSE ∧ c5St.hitFileio = false ∧
      c5Env.readFieldsOk = true ∧ toInt32 (getField c5St c5Env 0) = 1) ∧
    (dispatch c5St c5Env).state.result = 0 := by
  refine ⟨⟨by decide, by decide, by decide, by decide⟩, ?_⟩
  exact (C5_close_protects_stdio c5St c5Env (by decide) (by decide) (by decide)
    (Or.inr (Or.inl (by decide)))).1

/-- Claim C10: a READ or WRITE that is redirected (per `redirect_cfg` and
the stdio fd match) while no TCP client is attached fails with result -1
and errno EBADF, performing no host read/write and no TCP transfer. -/
theorem C10_redirect_without_client (st : SemiState) (env : HostEnv)
    (hop : st.op = SEMIHOSTING_SYS_READ ∨ st.op = SEMIHOSTING_SYS_WRITE)
    (hfio : st.isFileio = false)
    (hhf : st.hitFileio = false)
    (hred : isRedirected st (toInt32 (getField st env 0)) = true)
    (htcp : st.tcpConnection = false)
    (hrf : env.readFieldsOk = true)
    (hm : env.mallocOk = true)
    (hrb : env.readBufOk = true) :
    (dispatch st env).state.result = -1 ∧
    (dispatch st env).state.sysErrno = EBADF ∧
    (∀ fd n, HostAct.readCall fd n ∉ (dispatch st env).acts) ∧
    (∀ fd n, HostAct.writeCall fd n ∉ (dispatch st env).acts) ∧
    (∀ n, HostAct.connRead n ∉ (dispatch st env).acts) ∧
    (∀ n, HostAct.connWrite n ∉ (dispatch st env).acts) := by
  rcases hop with hop | hop
  · have hbr : dispatchCore (prepState st) env = hRead (prepState st) env := by
      unfold dispatchCore
      rw [prepState_op, hop]
      simp
    unfold dispatch
    rw [hbr]
    unfold hRead semiRead
    simp only [getField_prepState, isRedirected_prepState, prepState_isFileio,
      prepState_tcpConnection, hred, hrf, hfio, hm, htcp]
    simp [hhf, DispatchOut.state, DispatchOut.acts]
    split_ifs <;> simp [DispatchOut.state, DispatchOut.acts]
  · have hbr : dispatchCore (prepState st) env = hWrite (prepState st) env := by
      unfold dispatchCore
      rw [prepState_op, hop]
      simp
    unfold dispatch
    rw [hbr]
    unfold hWrite semiWrite
    simp only [getField_prepState, isRedirected_prepState, prepState_isFileio,
      prepState_tcpConnection, hred, hrf, hfio, hm, hrb, htcp]
    simp [hhf, DispatchOut.state, DispatchOut.acts]
    split_ifs <;> simp [DispatchOut.state, DispatchOut.acts]

/-- Witness for C10: WRITE to fd 3 = stdout_fd under redirect `all` with no
client attached. -/
theorem C10_redirect_without_client_witness :
    (c10St.op = SEMIHOSTING_SYS_WRITE ∧ c10St.isFileio = false ∧
      isRedirected c10St (toInt32 (getField c10St c10Env 0)) = true ∧
      c10St.tcpConnection = false) ∧
    (dispatch c10St c10Env).state.result = -1 ∧
    (dispatch c10St c10Env).state.sysErrno = EBADF := by
  refine ⟨⟨by decide, by decide, by decide, by decide⟩, ?_, ?_⟩
  · exact (C10_redirect_without_client c10St c10Env (Or.inr (by decide)) (by decide)
      (by decide) (by decide) (by decide) (by decide) (by decide) (by decide)).1
  · exact (C10_redirect_without_client c10St c10Env (Or.inr (by decide)) (by decide)
      (by decide) (by decide) (by decide) (by decide) (by decide) (by decide)).2.1

/-- Claim C2 (code bug): a FLEN trap in fileio mode DOES perform the host
`fstat` and overwrites the intended -1/EINVAL result with the fstat
outcome: the `if (semihosting->is_fileio)` block at lines 687-690 stores
-1/EINVAL but lacks an early exit, so the host path below it still runs.
At fd 7 with a succeeding `fstat` of size 42, the dispatcher returns 42. -/
theorem C2_fileio_flen_performs_fstat :
    (dispatch c2St c2Env).state.result = 42 ∧
    (dispatch c2St c2Env).state.result ≠ -1 ∧
    HostAct.fstat 7 ∈ (dispatch c2St c2Env).acts ∧
    (dispatch c2St c2Env).state.hitFileio = false := by
  decide

/-- Claim C3 counterexample: with basedir "/b" (host mode), opening ":tt"
in mode 4 performs a host `open("/b/:tt")` instead of duplicating stdout
(the special name is not recognized), and an absolute name is still
prefixed. -/
theorem C3_counterexample :
    joinBasedir (some "/b") ":tt" = "/b/:tt" ∧
    ("/b/:tt" : String) ≠ ":tt" ∧
    joinBasedir (some "/b") "/abs" = "/b//abs" ∧
    ("/b//abs" : String) ≠ "/abs" ∧
    HostAct.openFile "/b/:tt" 4 ∈ (dispatch c3St c3Env).acts ∧
    HostAct.dup 4 ∉ (dispatch c3St c3Env).acts ∧
    (dispatch c3St c3Env).state.stdoutFd = -1 ∧
    (dispatch c3St c3Env).state.result = 7 := by
  decide

/-- Claim C3 (amended): OPEN prefixes the target-supplied name with
`basedir` whenever `basedir` is a non-empty string, inserting "/" when
`basedir` does not end in one, regardless of whether the name is absolute;
the special-name comparison is made against the prefixed name, so ":tt"
is special only when the prefixed name equals ":tt". -/
theorem C3_basedir_prefixing (st : SemiState) (env : HostEnv)
    (hop : st.op = SEMIHOSTING_SYS_OPEN)
    (hfio : st.isFileio = false)
    (hhf : st.hitFileio = false)
    (hrf : env.readFieldsOk = true)
    (hm : env.mallocOk = true)
    (hrb : env.readBufOk = true)
    (hmode : u64ToU32 (getField st env 1) ≤ 11) :
    (∀ b name, b.length ≠ 0 →
      joinBasedir (some b) name = (if b.back = '/' then b else b ++ "/") ++ name) ∧
    (joinBasedir st.basedir env.memName ≠ ":tt" →
      HostAct.openFile (joinBasedir st.basedir env.memName)
          (u64ToU32 (getField st env 1)) ∈ (dispatch st env).acts ∧
      (∀ m, HostAct.dup m ∉ (dispatch st env).acts)) ∧
    (joinBasedir st.basedir env.memName = ":tt" →
      HostAct.dup (u64ToU32 (getField st env 1)) ∈ (dispatch st env).acts) := by
  have hbr : dispatchCore (prepState st) env = hOpen (prepState st) env := by
    unfold dispatchCore
    rw [prepState_op, hop]
    simp
  have hmode2 : ¬u64ToU32 (getField st env 1) > 11 := by omega
  refine ⟨?_, ?_, ?_⟩
  · intro b name hb
    unfold joinBasedir
    simp [hb]
  · intro hfn
    unfold dispatch
    rw [hbr]
    unfold hOpen
    simp only [getField_prepState, prepState_isFileio, prepState_basedir, hrf, hm,
      hrb, hfio, hmode2]
    simp only [Bool.not_true, if_false, ite_false, if_neg hmode2, if_neg hfn]
    constructor <;>
      (simp [hfn, hhf, DispatchOut.state, DispatchOut.acts];
       split_ifs <;> simp [DispatchOut.state, DispatchOut.acts])
  · intro hfn
    unfold dispatch
    rw [hbr]
    unfold hOpen
    simp only [getField_prepState, prepState_isFileio, prepState_basedir, hrf, hm,
      hrb, hfio, hmode2]
    simp [hfn, hhf, DispatchOut.state, DispatchOut.acts]
    split_ifs <;> simp [DispatchOut.state, DispatchOut.acts]

/-- Witness for C3 (amended) at the concrete basedir "/b", name ":tt". -/
theorem C3_basedir_prefixing_witness :
    (c3St.op = SEMIHOSTING_SYS_OPEN ∧ c3St.isFileio = false ∧
      u64ToU32 (getField c3St c3Env 1) ≤ 11 ∧
      joinBasedir c3St.basedir c3Env.memName ≠ ":tt") ∧
    HostAct.openFile (joinBasedir c3St.basedir c3Env.memName)
      (u64ToU32 (getField c3St c3Env 1)) ∈ (dispatch c3St c3Env).acts := by
  refine ⟨⟨by decide, by decide, by decide, by decide⟩, ?_⟩
  exact ((C3_basedir_prefixing c3St c3Env (by decide) (by decide) (by decide)
    (by decide) (by decide) (by decide) (by decide)).2.1 (by decide)).1

/-- Claim C7 counterexample: the `uint16_t prescaler` truncation happens
BEFORE the clamp, so for traceclkin 65537 Hz and pin frequency 1 Hz the
rounded ratio 65537 truncates to prescaler 1 (ACPR written with 0, rate
65537 Hz), not the claimed clamp to 0x1FFF (ACPR 8190, rate 8 Hz). -/
theorem C7_counterexample :
    tpiuExternalPrescaler 65537 1 = 1 ∧
    specPrescaler 65537 1 = 8191 ∧
    tpiuExternalPrescaler 65537 1 ≠ specPrescaler 65537 1 ∧
    (enable c7Obj c7Env).status = ERROR_OK ∧
    (enable c7Obj c7Env).obj.swoPinFreq = 65537 ∧
    TAct.regWrite TPIU_ACPR_OFFSET 0 ∈ (enable c7Obj c7Env).acts ∧
    TAct.regWrite TPIU_ACPR_OFFSET 8190 ∉ (enable c7Obj c7Env).acts := by
  decide

/-- Claim C7 (amended): on the external + UART/MANCHESTER path the
prescaler is the rounded ratio `(traceclkin + pin_freq/2) / pin_freq`
(32-bit arithmetic) truncated to 16 bits and then clamped to 0x1FFF, and
the effective rate is `traceclkin / prescaler`; the spec's concrete
instance 168 MHz / 2 MHz gives prescaler 84, rate 2 MHz, ACPR 83. -/
theorem C7_prescaler (obj : TpiuObj) (env : TpiuEnv)
    (hext : obj.outFilename = "external")
    (hum : uartOrManch obj.pinProtocol = true) :
    sinkPhase obj env =
      ⟨ERROR_OK,
       { obj with swoPinFreq :=
          obj.traceclkinFreq /
            tpiuExternalPrescaler obj.traceclkinFreq obj.swoPinFreq },
       [], tpiuExternalPrescaler obj.traceclkinFreq obj.swoPinFreq, true⟩ ∧
    (∀ tc sw, tpiuExternalPrescaler tc sw =
      min (((tc + sw / 2) % 4294967296 / sw) % 65536) TPIU_ACPR_MAX_PRESCALER) ∧
    tpiuExternalPrescaler 168000000 2000000 = 84 ∧
    (enable c7ObjGood c7Env).status = ERROR_OK ∧
    TAct.regWrite TPIU_ACPR_OFFSET 83 ∈ (enable c7ObjGood c7Env).acts ∧
    (enable c7ObjGood c7Env).obj.swoPinFreq = 2000000 := by
  refine ⟨?_, ?_, by decide, by decide, by decide, by decide⟩
  · unfold sinkPhase
    rw [if_pos hext, if_pos hum]
  · intro tc sw
    show (if ((tc + sw / 2) % 4294967296 / sw) % 65536 > TPIU_ACPR_MAX_PRESCALER
        then TPIU_ACPR_MAX_PRESCALER
        else ((tc + sw / 2) % 4294967296 / sw) % 65536) = _
    split_ifs with h <;> omega

/-- Witness for C7 (amended) at the spec's concrete configuration. -/
theorem C7_prescaler_witness :
    (c7ObjGood.outFilename = "external" ∧ uartOrManch c7ObjGood.pinProtocol = true) ∧
    tpiuExternalPrescaler 168000000 2000000 = 84 := by
  exact ⟨⟨by decide, by decide⟩,
    (C7_prescaler c7ObjGood c7Env (by decide) (by decide)).2.2.1⟩

/-- Claim C8 counterexample: `handle_arm_tpiu_swo_disable` discards the
result of the pre-disable hook, so a failing pre-disable hook does NOT
prevent the post-disable hook; the disable still completes with ERROR_OK
and both hooks run. -/
theorem C8_counterexample :
    c8Env.preDisableOk = false ∧
    c8Obj.hasPreDisable = true ∧
    (tpiuDisable c8Obj c8Env).status = ERROR_OK ∧
    (tpiuDisable c8Obj c8Env).obj.enabled = false ∧
    TAct.hookRun TEvent.preDisable ∈ (tpiuDisable c8Obj c8Env).acts ∧
    TAct.hookRun TEvent.postDisable ∈ (tpiuDisable c8Obj c8Env).acts := by
  decide

/-- Claim C8 (amended): during ENABLE a hook failure is fatal — a failing
pre-enable hook aborts the enable before any TPIU register access and the
post-enable hook never runs; during DISABLE the hook results are ignored —
the transition proceeds and the post-disable hook still runs after a
failing pre-disable hook (unless stopping the adapter trace itself
fails). -/
theorem C8_hook_failure (obj : TpiuObj) (env : TpiuEnv) :
    (env.isConfigMode = false → obj.enabled = false → env.transportHla = false →
     obj.traceclkinFreq ≠ 0 →
     ¬(uartOrManch obj.pinProtocol = true ∧ obj.swoPinFreq = 0 ∧
        obj.outFilename = "external") →
     obj.recheckApCurTarget = false → env.apGetOk = true →
     obj.hasPreEnable = true → env.preEnableOk = false →
     (enable obj env).status = ERROR_FAIL ∧
     (enable obj env).obj.enabled = false ∧
     TAct.hookRun TEvent.postEnable ∉ (enable obj env).acts ∧
     (∀ off v, TAct.regWrite off v ∉ (enable obj env).acts) ∧
     (∀ off, TAct.regRead off ∉ (enable obj env).acts)) ∧
    (obj.enabled = true → env.preDisableOk = false →
     (obj.enCapture = true → env.configTraceStopOk = true) →
     obj.hasPostDisable = true →
     TAct.hookRun TEvent.postDisable ∈ (tpiuDisable obj env).acts) := by
  constructor
  · intro hcfg hen hhla htc hfr hrc hap hpre hpok
    have hres : enable obj env =
        ⟨ERROR_FAIL, { obj with apHeld := true },
         (if obj.apHeld then ([] : List TAct) else [TAct.apGet]) ++
           [TAct.hookRun TEvent.preEnable]⟩ := by
      unfold enable enableAp enableHook
      rw [if_neg (by simp [hcfg]), if_neg (by simp [hen]), if_neg (by simp [hhla]),
        if_neg htc, if_neg hfr, if_neg (by simp [hrc])]
      simp only [hrc, Bool.false_eq_true, if_false]
      rw [if_neg (by simp [hap])]
      simp [handleEventOk, handleEventActs, TpiuObj.hasEvAction, TpiuEnv.evOk,
        hpre, hpok]
    rw [hres]
    refine ⟨rfl, hen, ?_, ?_, ?_⟩ <;>
      cases hA : obj.apHeld <;> simp [hA]
  · intro hen hpok hcts hpost
    unfold tpiuDisable
    simp only [hen, handleEventOk, handleEventActs, TpiuObj.hasEvAction,
      TpiuEnv.evOk]
    by_cases hc : obj.enCapture
    · simp [hc, hcts hc, hpost, closeOutputObj, closeOutputActs]
    · simp [hc, hpost]

/-- Witness for C8 (amended) at the concrete fixture: a failing
pre-disable hook with post-disable still firing. -/
theorem C8_hook_failure_witness :
    (c8Obj.enabled = true ∧ c8Env.preDisableOk = false ∧
      c8Obj.hasPostDisable = true) ∧
    TAct.hookRun TEvent.postDisable ∈ (tpiuDisable c8Obj c8Env).acts := by
  refine ⟨⟨by decide, by decide, by decide⟩, ?_⟩
  exact (C8_hook_failure c8Obj c8Env).2 (by decide) (by decide)
    (fun h => by simp [c8Obj] at h) (by decide)

/-- Claim C9 counterexample: `arm_tpiu_swo_cleanup_all` frees the objects
but never unlinks them from `all_tpiu_swo` (no `list_del`) and never
clears `enabled`/`en_capture`/`ap`, so running it twice releases the AP
twice and frees each object twice — not the same final state as one run. -/
theorem C9_counterexample :
    cleanupTwice [c9Obj] ≠ cleanupAll [c9Obj] ∧
    (cleanupAll [c9Obj]).2.count (TAct.freeObj "tpiu") = 1 ∧
    (cleanupTwice [c9Obj]).2.count (TAct.freeObj "tpiu") = 2 ∧
    (cleanupTwice [c9Obj]).2.count TAct.apPut = 2 := by
  decide

/-- Claim C9 (amended): global cleanup is idempotent only on an empty
registry; with any registered instance, a second invocation walks the
still-linked freed objects and repeats their teardown (hooks, AP release,
free), so it does not yield the same final state. -/
theorem C9_cleanup_not_idempotent (objs : List TpiuObj) :
    (objs = [] → cleanupTwice objs = cleanupAll objs) ∧
    (objs ≠ [] → cleanupTwice objs ≠ cleanupAll objs) := by
  constructor
  · rintro rfl
    rfl
  · intro hne h
    have h2 : (cleanupTwice objs).2.length = (cleanupAll objs).2.length := by
      rw [h]
    have hlen : ((cleanupAll (cleanupAll objs).1).2).length = 0 := by
      simp only [cleanupTwice, List.length_append] at h2
      omega
    rcases objs with _ | ⟨o, t⟩
    · exact hne rfl
    · simp only [cleanupAll, List.map_cons, List.flatMap_cons, List.length_append,
        cleanupObjActs, List.length_cons] at hlen
      omega

/-- Claim C1 counterexample: (a) host-mode READ whose host `read` fails
returns result -1, not the requested length 5 the claim demands; (b) a
fileio WRITE whose frontend result is -1 ends with result 5 (the length)
and does NOT store the frontend errno (13), while the claim demands
result -1 with errno set. -/
theorem C1_counterexample :
    (dispatch c1StHostRead c1EnvHostRead).state.result = -1 ∧
    ((-1 : Int) ≠ 5) ∧
    (fileioEnd (dispatch c1StFileioWrite c1EnvFileioWrite).state
      (-1) 13 false).1.result = 5 ∧
    ((5 : Int) ≠ -1) ∧
    (fileioEnd (dispatch c1StFileioWrite c1EnvFileioWrite).state
      (-1) 13 false).1.sysErrno = 0 ∧
    (dispatch c1StFileioWrite c1EnvFileioWrite).state.hitFileio = true := by
  decide

/-- Claim C1 (amended): for READ/WRITE with transfer count `r ≥ 0` the
final result is `length − r` in both host and fileio mode.  On failure the
two modes differ: in host mode (not redirected) both READ and WRITE yield
result -1 with `sys_errno` set to the host errno; in fileio mode both READ
and WRITE yield result = length ("zero bytes transferred") and the
frontend errno is NOT stored, because the munged result is no longer -1. -/
theorem C1_read_write_result_convention (st : SemiState) (env : HostEnv)
    (hop : st.op = SEMIHOSTING_SYS_READ ∨ st.op = SEMIHOSTING_SYS_WRITE)
    (hhf : st.hitFileio = false)
    (hrf : env.readFieldsOk = true)
    (hm : env.mallocOk = true)
    (hrb : env.readBufOk = true)
    (hwb : env.writeBufOk = true)
    (hnr : isRedirected st (toInt32 (getField st env 0)) = false) :
    (st.isFileio = false → st.op = SEMIHOSTING_SYS_READ → 0 ≤ env.hostReadRes →
      (dispatch st env).state.result =
        ((getField st env 2 : Int) - env.hostReadRes)) ∧
    (st.isFileio = false → st.op = SEMIHOSTING_SYS_READ → env.hostReadRes = -1 →
      (dispatch st env).state.result = -1 ∧
      (dispatch st env).state.sysErrno = env.hostErrno) ∧
    (st.isFileio = false → st.op = SEMIHOSTING_SYS_WRITE → 0 ≤ env.hostWriteRes →
      (dispatch st env).state.result =
        ((getField st env 2 : Int) - env.hostWriteRes)) ∧
    (st.isFileio = false → st.op = SEMIHOSTING_SYS_WRITE → env.hostWriteRes = -1 →
      (dispatch st env).state.result = -1 ∧
      (dispatch st env).state.sysErrno = env.hostErrno) ∧
    (st.isFileio = true →
      (dispatch st env).state.hitFileio = true ∧
      (dispatch st env).state.fileio.p3 = getField st env 2 ∧
      (∀ r e : Int, 0 ≤ r →
        (fileioEnd (dispatch st env).state r e false).1.result =
          ((dispatch st env).state.fileio.p3 : Int) - r) ∧
      (∀ r e : Int, r < 0 →
        (fileioEnd (dispatch st env).state r e false).1.result =
          ((dispatch st env).state.fileio.p3 : Int) ∧
        (fileioEnd (dispatch st env).state r e false).1.sysErrno =
          (dispatch st env).state.sysErrno)) := by
  refine ⟨?_, ?_, ?_, ?_, ?_⟩
  · intro hfio hop2 hr
    have hbr : dispatchCore (prepState st) env = hRead (prepState st) env := by
      unfold dispatchCore
      rw [prepState_op, hop2]
      simp
    unfold dispatch
    rw [hbr]
    unfold hRead semiRead
    simp only [getField_prepState, isRedirected_prepState, prepState_isFileio,
      prepState_tcpConnection, hrf, hfio, hm, hnr]
    simp [hr, hwb, hhf, DispatchOut.state, DispatchOut.acts]
    split_ifs <;> simp [DispatchOut.state]
  · intro hfio hop2 hr
    have hbr : dispatchCore (prepState st) env = hRead (prepState st) env := by
      unfold dispatchCore
      rw [prepState_op, hop2]
      simp
    unfold dispatch
    rw [hbr]
    unfold hRead semiRead
    simp only [getField_prepState, isRedirected_prepState, prepState_isFileio,
      prepState_tcpConnection, prepState_sysErrno, hrf, hfio, hm, hnr, hr]
    simp [hhf, DispatchOut.state, DispatchOut.acts]
    split_ifs <;> simp [DispatchOut.state]
  · intro hfio hop2 hr
    have hbr : dispatchCore (prepState st) env = hWrite (prepState st) env := by
      unfold dispatchCore
      rw [prepState_op, hop2]
      simp
    unfold dispatch
    rw [hbr]
    unfold hWrite semiWrite
    simp only [getField_prepState, isRedirected_prepState, prepState_isFileio,
      prepState_tcpConnection, hrf, hfio, hm, hrb, hnr]
    simp [hr, hhf, DispatchOut.state, DispatchOut.acts]
    split_ifs <;> simp [DispatchOut.state]
  · intro hfio hop2 hr
    have hbr : dispatchCore (prepState st) env = hWrite (prepState st) env := by
      unfold dispatchCore
      rw [prepState_op, hop2]
      simp
    unfold dispatch
    rw [hbr]
    unfold hWrite semiWrite
    simp only [getField_prepState, isRedirected_prepState, prepState_isFileio,
      prepState_tcpConnection, prepState_sysErrno, hrf, hfio, hm, hrb, hnr, hr]
    simp [hhf, DispatchOut.state, DispatchOut.acts]
    split_ifs <;> simp [DispatchOut.state]
  · intro hfio
    rcases hop with hop2 | hop2
    · have hbr : dispatchCore (prepState st) env = hRead (prepState st) env := by
        unfold dispatchCore
        rw [prepState_op, hop2]
        simp
      have hd : dispatch st env = DispatchOut.ret ERROR_OK
          { prepState st with
              hitFileio := true,
              fileio := ⟨"read", getField st env 0, getField st env 1, getField st env 2, 0⟩ }
          [HostAct.fileioPublish "read"] := by
        unfold dispatch
        rw [hbr]
        unfold hRead
        simp [hrf, hfio]
      rw [hd]
      refine ⟨rfl, rfl, ?_, ?_⟩
      · intro r e hr
        have hnneg : ¬(r < 0) := by omega
        unfold fileioEnd
        simp [DispatchOut.state, hop2, hnneg]
        split_ifs <;> simp
      · intro r e hr
        unfold fileioEnd
        simp [DispatchOut.state, hop2, hr]
    · have hbr : dispatchCore (prepState st) env = hWrite (prepState st) env := by
        unfold dispatchCore
        rw [prepState_op, hop2]
        simp
      have hd : dispatch st env = DispatchOut.ret ERROR_OK
          { prepState st with
              hitFileio := true,
              fileio := ⟨"write", getField st env 0, getField st env 1, getField st env 2, 0⟩ }
          [HostAct.fileioPublish "write"] := by
        unfold dispatch
        rw [hbr]
        unfold hWrite
        simp [hrf, hfio]
      rw [hd]
      refine ⟨rfl, rfl, ?_, ?_⟩
      · intro r e hr
        have hnneg : ¬(r < 0) := by omega
        unfold fileioEnd
        simp [DispatchOut.state, hop2, hnneg]
        split_ifs <;> simp
      · intro r e hr
        unfold fileioEnd
        simp [DispatchOut.state, hop2, hr]

/-- Witness for C1 (amended): host-mode READ of 5 bytes with host read
returning 2 gives result 3. -/
theorem C1_read_write_result_convention_witness :
    (c1StHostRead.op = SEMIHOSTING_SYS_READ ∧ c1StHostRead.isFileio = false ∧
      (0 : Int) ≤ c1EnvPartial.hostReadRes ∧
      isRedirected c1StHostRead
        (toInt32 (getField c1StHostRead c1EnvPartial 0)) = false) ∧
    (dispatch c1StHostRead c1EnvPartial).state.result = 3 := by
  refine ⟨⟨by decide, by decide, by decide, by decide⟩, ?_⟩
  have h := (C1_read_write_result_convention c1StHostRead c1EnvPartial
    (Or.inl (by decide)) (by decide) (by decide) (by decide) (by decide)
    (by decide) (by decide)).1 (by decide) (by decide) (by decide)
  rw [h]
  decide

theorem corePostOk_done (s : SemiState) (a : List HostAct) :
    corePostOk (.done s a) = (a.count HostAct.postResult = 0) := by
  simp [corePostOk, CoreOut.acts]

theorem corePostOk_early (c : Int) (s : SemiState) (a : List HostAct) :
    corePostOk (.early c s a) =
      (a.count HostAct.postResult = 0 ∧ s.hitFileio = false) := by
  simp [corePostOk, CoreOut.acts]

theorem corePostOk_exited (c : Int) (s : SemiState) (a : List HostAct) :
    corePostOk (.exited c s a) =
      (a.count HostAct.postResult = 0 ∧ s.hitFileio = false) := by
  simp [corePostOk, CoreOut.acts]

theorem hClock_post (st : SemiState) (env : HostEnv) (hhf : st.hitFileio = false) :
    corePostOk (hClock st env) := by
  simp [hClock, apply_ite corePostOk, corePostOk_done, corePostOk_early,
    corePostOk_exited, hhf, List.count_cons, List.count_nil]

theorem hClose_post (st : SemiState) (env : HostEnv) (hhf : st.hitFileio = false) :
    corePostOk (hClose st env) := by
  simp [hClose, apply_ite corePostOk, corePostOk_done, corePostOk_early,
    corePostOk_exited, hhf, List.count_cons, List.count_nil]

theorem hErrno_post (st : SemiState) (env : HostEnv) (hhf : st.hitFileio = false) :
    corePostOk (hErrno st env) := by
  simp [hErrno, apply_ite corePostOk, corePostOk_done, corePostOk_early,
    corePostOk_exited, hhf, List.count_cons, List.count_nil]

theorem hExit_post (st : SemiState) (env : HostEnv) (hhf : st.hitFileio = false) :
    corePostOk (hExit st env) := by
  simp [hExit, exitTail, apply_ite corePostOk, corePostOk_done, corePostOk_early,
    corePostOk_exited, hhf, List.count_cons, List.count_nil]

theorem hExitExtended_post (st : SemiState) (env : HostEnv) (hhf : st.hitFileio = false) :
    corePostOk (hExitExtended st env) := by
  simp [hExitExtended, exitTail, apply_ite corePostOk, corePostOk_done, corePostOk_early,
    corePostOk_exited, hhf, List.count_cons, List.count_nil]

theorem hFlen_post (st : SemiState) (env : HostEnv) (hhf : st.hitFileio = false) :
    corePostOk (hFlen st env) := by
  simp [hFlen, apply_ite corePostOk, corePostOk_done, corePostOk_early,
    corePostOk_exited, hhf, List.count_cons, List.count_nil]
  intro _
  split_ifs <;> simp_all

theorem hGetCmdline_post (st : SemiState) (env : HostEnv) (hhf : st.hitFileio = false) :
    corePostOk (hGetCmdline st env) := by
  simp [hGetCmdline, apply_ite corePostOk, corePostOk_done, corePostOk_early,
    corePostOk_exited, hhf, List.count_cons, List.count_nil]

theorem hHeapinfo_post (st : SemiState) (env : HostEnv) (hhf : st.hitFileio = false) :
    corePostOk (hHeapinfo st env) := by
  simp [hHeapinfo, apply_ite corePostOk, corePostOk_done, corePostOk_early,
    corePostOk_exited, hhf, List.count_cons, List.count_nil]

theorem hIserror_post (st : SemiState) (env : HostEnv) (hhf : st.hitFileio = false) :
    corePostOk (hIserror st env) := by
  simp [hIserror, apply_ite corePostOk, corePostOk_done, corePostOk_early,
    corePostOk_exited, hhf, List.count_cons, List.count_nil]

theorem hIstty_post (st : SemiState) (env : HostEnv) (hhf : st.hitFileio = false) :
    corePostOk (hIstty st env) := by
  simp [hIstty, apply_ite corePostOk, corePostOk_done, corePostOk_early,
    corePostOk_exited, hhf, List.count_cons, List.count_nil]

theorem hOpen_post (st : SemiState) (env : HostEnv) (hhf : st.hitFileio = false) :
    corePostOk (hOpen st env) := by
  simp [hOpen, apply_ite corePostOk, corePostOk_done, corePostOk_early,
    corePostOk_exited, hhf, List.count_cons, List.count_nil]

theorem hRead_post (st : SemiState) (env : HostEnv) (hhf : st.hitFileio = false) :
    corePostOk (hRead st env) := by
  simp [hRead, semiRead, apply_ite corePostOk, corePostOk_done, corePostOk_early,
    corePostOk_exited, hhf, List.count_cons, List.count_nil]
  split_ifs <;> simp_all

theorem hReadc_post (st : SemiState) (env : HostEnv) (hhf : st.hitFileio = false) :
    corePostOk (hReadc st env) := by
  simp [hReadc, apply_ite corePostOk, corePostOk_done, corePostOk_early,
    corePostOk_exited, hhf, List.count_cons, List.count_nil]

theorem hRemove_post (st : SemiState) (env : HostEnv) (hhf : st.hitFileio = false) :
    corePostOk (hRemove st env) := by
  simp [hRemove, apply_ite corePostOk, corePostOk_done, corePostOk_early,
    corePostOk_exited, hhf, List.count_cons, List.count_nil]

theorem hRename_post (st : SemiState) (env : HostEnv) (hhf : st.hitFileio = false) :
    corePostOk (hRename st env) := by
  simp [hRename, apply_ite corePostOk, corePostOk_done, corePostOk_early,
    corePostOk_exited, hhf, List.count_cons, List.count_nil]

theorem hSeek_post (st : SemiState) (env : HostEnv) (hhf : st.hitFileio = false) :
    corePostOk (hSeek st env) := by
  simp [hSeek, apply_ite corePostOk, corePostOk_done, corePostOk_early,
    corePostOk_exited, hhf, List.count_cons, List.count_nil]

theorem hSystem_post (st : SemiState) (env : HostEnv) (hhf : st.hitFileio = false) :
    corePostOk (hSystem st env) := by
  simp [hSystem, apply_ite corePostOk, corePostOk_done, corePostOk_early,
    corePostOk_exited, hhf, List.count_cons, List.count_nil]

theorem hTime_post (st : SemiState) (env : HostEnv) (hhf : st.hitFileio = false) :
    corePostOk (hTime st env) := by
  simp [hTime, apply_ite corePostOk, corePostOk_done, corePostOk_early,
    corePostOk_exited, hhf, List.count_cons, List.count_nil]

theorem hWrite_post (st : SemiState) (env : HostEnv) (hhf : st.hitFileio = false) :
    corePostOk (hWrite st env) := by
  simp [hWrite, semiWrite, apply_ite corePostOk, corePostOk_done, corePostOk_early,
    corePostOk_exited, hhf, List.count_cons, List.count_nil]
  split_ifs <;> simp_all

theorem hWritec_post (st : SemiState) (env : HostEnv) (hhf : st.hitFileio = false) :
    corePostOk (hWritec st env) := by
  simp [hWritec, apply_ite corePostOk, corePostOk_done, corePostOk_early,
    corePostOk_exited, hhf, List.count_cons, List.count_nil]

theorem hWrite0_post (st : SemiState) (env : HostEnv) (hhf : st.hitFileio = false) :
    corePostOk (hWrite0 st env) := by
  simp [hWrite0, apply_ite corePostOk, corePostOk_done, corePostOk_early,
    corePostOk_exited, hhf, List.count_cons, List.count_nil, List.count_replicate]

theorem hUserCmd_post (st : SemiState) (env : HostEnv) (hhf : st.hitFileio = false) :
    corePostOk (hUserCmd st env) := by
  rcases hu : env.userCmdExtRes with _ | r <;>
    simp [hUserCmd, hUserCmdTcl, hu, apply_ite corePostOk, corePostOk_done,
      corePostOk_early, corePostOk_exited, hhf, List.count_cons, List.count_nil]

theorem hDefault_post (st : SemiState) (env : HostEnv) (hhf : st.hitFileio = false) :
    corePostOk (hDefault st env) := by
  simp [hDefault, apply_ite corePostOk, corePostOk_done, corePostOk_early,
    corePostOk_exited, hhf, List.count_cons, List.count_nil]

set_option maxHeartbeats 2000000 in
theorem dispatchCore_post (st : SemiState) (env : HostEnv)
    (hhf : st.hitFileio = false) : corePostOk (dispatchCore st env) := by
  unfold dispatchCore
  by_cases h1 : st.op = SEMIHOSTING_SYS_CLOCK
  · rw [if_pos h1]
    exact hClock_post st env hhf
  rw [if_neg h1]
  by_cases h2 : st.op = SEMIHOSTING_SYS_CLOSE
  · rw [if_pos h2]
    exact hClose_post st env hhf
  rw [if_neg h2]
  by_cases h3 : st.op = SEMIHOSTING_SYS_ERRNO
  · rw [if_pos h3]
    exact hErrno_post st env hhf
  rw [if_neg h3]
  by_cases h4 : st.op = SEMIHOSTING_SYS_EXIT
  · rw [if_pos h4]
    exact hExit_post st env hhf
  rw [if_neg h4]
  by_cases h5 : st.op = SEMIHOSTING_SYS_EXIT_EXTENDED
  · rw [if_pos h5]
    exact hExitExtended_post st env hhf
  rw [if_neg h5]
  by_cases h6 : st.op = SEMIHOSTING_SYS_FLEN
  · rw [if_pos h6]
    exact hFlen_post st env hhf
  rw [if_neg h6]
  by_cases h7 : st.op = SEMIHOSTING_SYS_GET_CMDLINE
  · rw [if_pos h7]
    exact hGetCmdline_post st env hhf
  rw [if_neg h7]
  by_cases h8 : st.op = SEMIHOSTING_SYS_HEAPINFO
  · rw [if_pos h8]
    exact hHeapinfo_post st env hhf
  rw [if_neg h8]
  by_cases h9 : st.op = SEMIHOSTING_SYS_ISERROR
  · rw [if_pos h9]
    exact hIserror_post st env hhf
  rw [if_neg h9]
  by_cases h10 : st.op = SEMIHOSTING_SYS_ISTTY
  · rw [if_pos h10]
    exact hIstty_post st env hhf
  rw [if_neg h10]
  by_cases h11 : st.op = SEMIHOSTING_SYS_OPEN
  · rw [if_pos h11]
    exact hOpen_post st env hhf
  rw [if_neg h11]
  by_cases h12 : st.op = SEMIHOSTING_SYS_READ
  · rw [if_pos h12]
    exact hRead_post st env hhf
  rw [if_neg h12]
  by_cases h13 : st.op = SEMIHOSTING_SYS_READC
  · rw [if_pos h13]
    exact hReadc_post st env hhf
  rw [if_neg h13]
  by_cases h14 : st.op = SEMIHOSTING_SYS_REMOVE
  · rw [if_pos h14]
    exact hRemove_post st env hhf
  rw [if_neg h14]
  by_cases h15 : st.op = SEMIHOSTING_SYS_RENAME
  · rw [if_pos h15]
    exact hRename_post st env hhf
  rw [if_neg h15]
  by_cases h16 : st.op = SEMIHOSTING_SYS_SEEK
  · rw [if_pos h16]
    exact hSeek_post st env hhf
  rw [if_neg h16]
  by_cases h17 : st.op = SEMIHOSTING_SYS_SYSTEM
  · rw [if_pos h17]
    exact hSystem_post st env hhf
  rw [if_neg h17]
  by_cases h18 : st.op = SEMIHOSTING_SYS_TIME
  · rw [if_pos h18]
    exact hTime_post st env hhf
  rw [if_neg h18]
  by_cases h19 : st.op = SEMIHOSTING_SYS_WRITE
  · rw [if_pos h19]
    exact hWrite_post st env hhf
  rw [if_neg h19]
  by_cases h20 : st.op = SEMIHOSTING_SYS_WRITEC
  · rw [if_pos h20]
    exact hWritec_post st env hhf
  rw [if_neg h20]
  by_cases h21 : st.op = SEMIHOSTING_SYS_WRITE0
  · rw [if_pos h21]
    exact hWrite0_post st env hhf
  rw [if_neg h21]
  by_cases h22 : SEMIHOSTING_USER_CMD_0X100 ≤ st.op ∧ st.op ≤ SEMIHOSTING_USER_CMD_0X107
  · rw [if_pos h22]
    exact hUserCmd_post st env hhf
  rw [if_neg h22]
  exact hDefault_post st env hhf

/-- Claim C6 counterexample: a 32-bit EXIT with reason
ADP_Stopped_ApplicationExit, a connected debugger and resumable exit off
completes the dispatch with status ERROR_OK through the halt-event path:
`hit_fileio` is false AND `post_result` is never invoked, contradicting
the claimed "never neither". -/
theorem C6_counterexample :
    (dispatch c6St c6Env).retStatus = some ERROR_OK ∧
    HostAct.postResult ∉ (dispatch c6St c6Env).acts ∧
    (dispatch c6St c6Env).state.hitFileio = false ∧
    (dispatch c6St c6Env).state.isResumable = false := by
  decide

/-- Claim C6 (amended): result is set to -1 before the handler runs (the
incoming `result` value is irrelevant); on completion `post_result` is
invoked exactly once when the dispatcher reaches its epilogue without a
pending fileio request, zero times when fileio was hit (never both), and
zero times on every early-returning path (target-memory transfer failure,
fileio READC, oversized or failed user command, and the non-resumable
EXIT/EXIT_EXTENDED halt path, which returns normally without posting);
early returns never leave a fileio request pending. -/
theorem C6_dispatch_completion (st : SemiState) (env : HostEnv)
    (hhf : st.hitFileio = false) :
    (∀ r : Int, dispatch { st with result := r } env = dispatch st env) ∧
    ((dispatch st env).acts.count HostAct.postResult =
      (if earlyReturn st env = true then 0
       else if (dispatch st env).state.hitFileio = true then 0 else 1)) ∧
    (earlyReturn st env = true → (dispatch st env).state.hitFileio = false) := by
  have hcore : corePostOk (dispatchCore (prepState st) env) :=
    dispatchCore_post (prepState st) env (by simp [hhf])
  refine ⟨fun r => rfl, ?_, ?_⟩
  · rcases hco : dispatchCore (prepState st) env with ⟨s, a⟩ | ⟨c, s, a⟩ | ⟨c, s, a⟩ <;>
      rw [hco] at hcore
    · rw [corePostOk_done] at hcore
      by_cases hsf : s.hitFileio = true
      · simp [dispatch, earlyReturn, hco, hsf, DispatchOut.acts, DispatchOut.state, hcore]
      · by_cases hpr : env.postResultRes = ERROR_OK <;>
          simp [dispatch, earlyReturn, hco, hsf, hpr, DispatchOut.acts, DispatchOut.state,
            List.count_append, List.count_cons, List.count_nil, hcore]
    · rw [corePostOk_early] at hcore
      simp [dispatch, earlyReturn, hco, DispatchOut.acts, hcore.1]
    · rw [corePostOk_exited] at hcore
      simp [dispatch, earlyReturn, hco, DispatchOut.acts, hcore.1]
  · intro he
    rcases hco : dispatchCore (prepState st) env with ⟨s, a⟩ | ⟨c, s, a⟩ | ⟨c, s, a⟩ <;>
      rw [hco] at hcore
    · exact absurd he (by simp [earlyReturn, hco])
    · rw [corePostOk_early] at hcore
      simpa [dispatch, hco, DispatchOut.state] using hcore.2
    · rw [corePostOk_exited] at hcore
      simpa [dispatch, hco, DispatchOut.state] using hcore.2

/-- Witness for C6 (amended) at the concrete EXIT fixture. -/
theorem C6_dispatch_completion_witness :
    (c6St.hitFileio = false) ∧
    (dispatch c6St c6Env).acts.count HostAct.postResult = 0 := by
  refine ⟨by decide, ?_⟩
  have h := (C6_dispatch_completion c6St c6Env (by decide)).2.1
  rw [h]
  decide

/-- Witness for C9 (amended) at the one-object registry. -/
theorem C9_cleanup_not_idempotent_witness :
    ([c9Obj] ≠ ([] : List TpiuObj)) ∧
    cleanupTwice [c9Obj] ≠ cleanupAll [c9Obj] := by
  exact ⟨by decide, (C9_cleanup_not_idempotent [c9Obj]).2 (by decide)⟩

/-- Counting distributes over a conditional list (proof helper). -/
theorem count_ite {α : Type} [DecidableEq α] (c : Prop) [Decidable c] (a : α)
    (l1 l2 : List α) :
    (if c then l1 else l2).count a = if c then l1.count a else l2.count a := by
  split_ifs <;> rfl

/-- Membership distributes over a conditional list (proof helper). -/
theorem mem_ite {α : Type} (c : Prop) [Decidable c] (a : α) (l1 l2 : List α) :
    (a ∈ if c then l1 else l2) ↔ (if c then a ∈ l1 else a ∈ l2) := by
  split_ifs <;> exact Iff.rfl

theorem actsClean_nil : actsClean [] := by
  simp [actsClean]

theorem actsClean_append {l1 l2 : List TAct} (h1 : actsClean l1)
    (h2 : actsClean l2) : actsClean (l1 ++ l2) := by
  obtain ⟨a1, b1, c1, d1, e1, f1, g1, i1, j1⟩ := h1
  obtain ⟨a2, b2, c2, d2, e2, f2, g2, i2, j2⟩ := h2
  refine ⟨?_, ?_, ?_, ?_, ?_, ?_, ?_, ?_, ?_⟩ <;>
    simp [List.count_append, List.mem_append, a1, b1, c1, d1, e1, f1, g1, i1, j1,
      a2, b2, c2, d2, e2, f2, g2, i2, j2]

theorem regsPhase_spec (obj : TpiuObj) (env : TpiuEnv) (p : Nat) :
    actsClean (regsPhase obj env p).acts ∧
    (((regsPhase obj env p).status = ERROR_OK ∧
        (regsPhase obj env p).obj = { obj with enabled := true }) ∨
      ((regsPhase obj env p).status ≠ ERROR_OK ∧
        (regsPhase obj env p).obj = obj)) := by
  unfold regsPhase
  split_ifs <;>
    simp_all [actsClean, handleEventActs, count_ite, mem_ite, List.count_append,
      List.count_cons, List.count_nil, List.mem_append]

theorem sinkAdapter_spec (obj : TpiuObj) (env : TpiuEnv) (pre : List TAct)
    (hpo : pre.count TAct.openTraceFile = (if obj.fileOpen then 1 else 0))
    (hpc : pre.count TAct.closeTraceFile = 0)
    (hpa : pre.count TAct.addService =
      (if obj.outFilename.front = ':' then 1 else 0))
    (hpr : pre.count TAct.removeService = 0)
    (hpt : pre.count TAct.registerTimer = 0)
    (hpu : pre.count TAct.unregisterTimer = 0)
    (hapm : TAct.apPut ∉ pre)
    (hcf : TAct.configTrace false ∉ pre)
    (hct : TAct.configTrace true ∉ pre) :
    ((sinkAdapter obj env pre).proceed = false ∧
      (sinkAdapter obj env pre).status ≠ ERROR_OK ∧
      (sinkAdapter obj env pre).obj.enabled = obj.enabled ∧
      (sinkAdapter obj env pre).obj.fileOpen = false ∧
      (sinkAdapter obj env pre).obj.enCapture = obj.enCapture ∧
      (sinkAdapter obj env pre).acts.count TAct.openTraceFile =
        (sinkAdapter obj env pre).acts.count TAct.closeTraceFile ∧
      (sinkAdapter obj env pre).acts.count TAct.addService =
        (sinkAdapter obj env pre).acts.count TAct.removeService ∧
      (sinkAdapter obj env pre).acts.count TAct.registerTimer = 0 ∧
      (sinkAdapter obj env pre).acts.count TAct.unregisterTimer = 0 ∧
      TAct.apPut ∉ (sinkAdapter obj env pre).acts ∧
      TAct.configTrace false ∉ (sinkAdapter obj env pre).acts ∧
      (env.configTraceOk = true →
        TAct.configTrace true ∈ (sinkAdapter obj env pre).acts →
        (uartOrManch obj.pinProtocol = true ∧ env.adapterFreq = 0))) ∨
    ((sinkAdapter obj env pre).proceed = true ∧
      (sinkAdapter obj env pre).obj.enCapture = true ∧
      (sinkAdapter obj env pre).obj.enabled = obj.enabled ∧
      (sinkAdapter obj env pre).obj.outFilename = obj.outFilename ∧
      (sinkAdapter obj env pre).obj.pinProtocol = obj.pinProtocol ∧
      env.configTraceOk = true ∧
      ¬(uartOrManch obj.pinProtocol = true ∧ env.adapterFreq = 0) ∧
      (sinkAdapter obj env pre).acts.count TAct.openTraceFile =
        (if (sinkAdapter obj env pre).obj.fileOpen then 1 else 0) ∧
      (sinkAdapter obj env pre).acts.count TAct.closeTraceFile = 0 ∧
      (sinkAdapter obj env pre).acts.count TAct.addService =
        (if obj.outFilename.front = ':' then 1 else 0) ∧
      (sinkAdapter obj env pre).acts.count TAct.removeService = 0 ∧
      (sinkAdapter obj env pre).acts.count TAct.registerTimer = 1 ∧
      (sinkAdapter obj env pre).acts.count TAct.unregisterTimer = 0 ∧
      TAct.apPut ∉ (sinkAdapter obj env pre).acts ∧
      TAct.configTrace false ∉ (sinkAdapter obj env pre).acts ∧
      TAct.configTrace true ∈ (sinkAdapter obj env pre).acts) := by
  unfold sinkAdapter
  by_cases hco : env.configTraceOk = true
  · by_cases hrj : uartOrManch obj.pinProtocol = true ∧ env.adapterFreq = 0
    · rw [if_neg (by simp [hco]), if_pos hrj]
      refine Or.inl ⟨rfl, by norm_num, rfl, rfl, rfl, ?_, ?_, ?_, ?_, ?_, ?_,
        fun _ _ => hrj⟩ <;>
        simp [closeOutputActs, List.count_append, count_ite, mem_ite,
          List.mem_append, hpo, hpc, hpa, hpr, hpt, hpu, hapm, hcf, hct]
    · rw [if_neg (by simp [hco]), if_neg hrj]
      refine Or.inr ⟨rfl, rfl, rfl, rfl, rfl, hco, hrj, ?_, ?_, ?_, ?_, ?_, ?_,
        ?_, ?_, ?_⟩ <;>
        simp [List.count_append, List.mem_append, hpo, hpc, hpa, hpr, hpt, hpu,
          hapm, hcf, hct]
  · rw [if_pos (by simp [hco])]
    refine Or.inl ⟨rfl, by norm_num, rfl, rfl, rfl, ?_, ?_, ?_, ?_, ?_, ?_,
      fun hc _ => absurd hc hco⟩ <;>
      simp [closeOutputActs, List.count_append, count_ite, mem_ite,
        List.mem_append, hpo, hpc, hpa, hpr, hpt, hpu, hapm, hcf, hct]

theorem sinkPhase_spec (obj : TpiuObj) (env : TpiuEnv)
    (hfo : obj.fileOpen = false) :
    ((sinkPhase obj env).proceed = false ∧
      (sinkPhase obj env).status ≠ ERROR_OK ∧
      (sinkPhase obj env).obj.enabled = obj.enabled ∧
      (sinkPhase obj env).obj.fileOpen = false ∧
      (sinkPhase obj env).obj.enCapture = obj.enCapture ∧
      (sinkPhase obj env).acts.count TAct.openTraceFile =
        (sinkPhase obj env).acts.count TAct.closeTraceFile ∧
      (sinkPhase obj env).acts.count TAct.addService =
        (sinkPhase obj env).acts.count TAct.removeService ∧
      (sinkPhase obj env).acts.count TAct.registerTimer = 0 ∧
      (sinkPhase obj env).acts.count TAct.unregisterTimer = 0 ∧
      TAct.apPut ∉ (sinkPhase obj env).acts ∧
      TAct.configTrace false ∉ (sinkPhase obj env).acts ∧
      (env.configTraceOk = true →
        TAct.configTrace true ∈ (sinkPhase obj env).acts →
        (uartOrManch obj.pinProtocol = true ∧ env.adapterFreq = 0))) ∨
    ((sinkPhase obj env).proceed = true ∧
      (sinkPhase obj env).obj.enCapture = true ∧
      (sinkPhase obj env).obj.enabled = obj.enabled ∧
      (sinkPhase obj env).obj.outFilename = obj.outFilename ∧
      (sinkPhase obj env).obj.pinProtocol = obj.pinProtocol ∧
      env.configTraceOk = true ∧
      ¬(uartOrManch obj.pinProtocol = true ∧ env.adapterFreq = 0) ∧
      (sinkPhase obj env).acts.count TAct.openTraceFile =
        (if (sinkPhase obj env).obj.fileOpen then 1 else 0) ∧
      (sinkPhase obj env).acts.count TAct.closeTraceFile = 0 ∧
      (sinkPhase obj env).acts.count TAct.addService =
        (if obj.outFilename.front = ':' then 1 else 0) ∧
      (sinkPhase obj env).acts.count TAct.removeService = 0 ∧
      (sinkPhase obj env).acts.count TAct.registerTimer = 1 ∧
      (sinkPhase obj env).acts.count TAct.unregisterTimer = 0 ∧
      TAct.apPut ∉ (sinkPhase obj env).acts ∧
      TAct.configTrace false ∉ (sinkPhase obj env).acts ∧
      TAct.configTrace true ∈ (sinkPhase obj env).acts) ∨
    ((sinkPhase obj env).proceed = true ∧
      (sinkPhase obj env).obj.enCapture = obj.enCapture ∧
      (sinkPhase obj env).obj.enabled = obj.enabled ∧
      (sinkPhase obj env).obj.fileOpen = false ∧
      (sinkPhase obj env).acts = []) := by
  by_cases hx : obj.outFilename = "external"
  · unfold sinkPhase
    rw [if_pos hx]
    by_cases hu : uartOrManch obj.pinProtocol = true
    · rw [if_pos hu]
      exact Or.inr (Or.inr ⟨rfl, rfl, rfl, hfo, rfl⟩)
    · rw [if_neg hu]
      exact Or.inr (Or.inr ⟨rfl, rfl, rfl, hfo, rfl⟩)
  · by_cases hcol : obj.outFilename.front = ':'
    · by_cases hm : env.mallocOk = true
      · by_cases ha : env.addServiceOk = true
        · have hrw : sinkPhase obj env = sinkAdapter obj env [TAct.addService] := by
            unfold sinkPhase
            rw [if_neg hx, if_pos hcol, if_neg (by simp [hm]), if_neg (by simp [ha])]
          rw [hrw]
          rcases sinkAdapter_spec obj env [TAct.addService]
            (by simp [hfo]) (by simp) (by simp [hcol]) (by simp) (by simp)
            (by simp) (by simp) (by simp) (by simp) with hA | hB
          · exact Or.inl hA
          · exact Or.inr (Or.inl hB)
        · have hrw : sinkPhase obj env = ⟨ERROR_FAIL, obj, [], 1, false⟩ := by
            unfold sinkPhase
            rw [if_neg hx, if_pos hcol, if_neg (by simp [hm]), if_pos (by simp [ha])]
          rw [hrw]
          exact Or.inl ⟨rfl, by norm_num, rfl, hfo, rfl, rfl, rfl, rfl, rfl,
            by simp, by simp, by simp⟩
      · have hrw : sinkPhase obj env = ⟨ERROR_FAIL, obj, [], 1, false⟩ := by
          unfold sinkPhase
          rw [if_neg hx, if_pos hcol, if_pos (by simp [hm])]
        rw [hrw]
        exact Or.inl ⟨rfl, by norm_num, rfl, hfo, rfl, rfl, rfl, rfl, rfl,
          by simp, by simp, by simp⟩
    · by_cases hd : obj.outFilename ≠ "-"
      · by_cases hf : env.fopenOk = true
        · have hrw : sinkPhase obj env =
              sinkAdapter { obj with fileOpen := true } env [TAct.openTraceFile] := by
            unfold sinkPhase
            rw [if_neg hx, if_neg hcol, if_pos hd, if_neg (by simp [hf])]
          rw [hrw]
          rcases sinkAdapter_spec { obj with fileOpen := true } env
            [TAct.openTraceFile] (by simp) (by simp) (by simp [hcol]) (by simp)
            (by simp) (by simp) (by simp) (by simp) (by simp) with hA | hB
          · exact Or.inl hA
          · exact Or.inr (Or.inl hB)
        · have hrw : sinkPhase obj env = ⟨ERROR_FAIL, obj, [], 1, false⟩ := by
            unfold sinkPhase
            rw [if_neg hx, if_neg hcol, if_pos hd, if_pos (by simp [hf])]
          rw [hrw]
          exact Or.inl ⟨rfl, by norm_num, rfl, hfo, rfl, rfl, rfl, rfl, rfl,
            by simp, by simp, by simp⟩
      · have hrw : sinkPhase obj env = sinkAdapter obj env [] := by
          unfold sinkPhase
          rw [if_neg hx, if_neg hcol, if_neg hd]
        rw [hrw]
        rcases sinkAdapter_spec obj env [] (by simp [hfo]) (by simp)
          (by simp [hcol]) (by simp) (by simp) (by simp) (by simp) (by simp)
          (by simp) with hA | hB
        · exact Or.inl hA
        · exact Or.inr (Or.inl hB)

theorem enableSink_spec (obj2 : TpiuObj) (env : TpiuEnv) (acts2 : List TAct)
    (hen : obj2.enabled = false) (hfo : obj2.fileOpen = false)
    (hec : obj2.enCapture = false) (hcl : actsClean acts2) :
    (enableSink obj2 env acts2).status ≠ ERROR_OK →
    cleanPost obj2.pinProtocol env (enableSink obj2 env acts2) := by
  intro hst
  obtain ⟨c1, c2, c3, c4, c5, c6, c7, c8, c9⟩ := hcl
  rcases sinkPhase_spec obj2 env hfo with
    ⟨hA1, hA2, hA3, hA4, hA5, hA6, hA7, hA8, hA9, hA10, hA11, hA12⟩ |
    ⟨hB1, hB2, hB3, hB4, hB5, hB6, hB7, hB8, hB9, hB10, hB11, hB12, hB13, hB14,
      hB15, hB16⟩ |
    ⟨hC1, hC2, hC3, hC4, hC5⟩
  · -- sink phase returned from inside (no capture started)
    unfold enableSink at hst ⊢
    rw [if_pos (by simp [hA1])] at hst ⊢
    refine ⟨hA3.trans hen, hA4, hA5.trans hec, ?_, ?_, ?_, ?_, ?_⟩
    · simp only [List.count_append, c1, c2]
      omega
    · simp only [List.count_append, c3, c4]
      omega
    · simp only [List.count_append, c5, c6, hA8, hA9]
    · simp [List.mem_append, c7, hA10]
    · refine iff_of_false ?_ ?_
      · intro hmem
        rcases List.mem_append.1 hmem with hm | hm
        · exact c8 hm
        · exact hA11 hm
      · rintro ⟨hco, hctm, hnrj⟩
        refine hnrj (hA12 hco ?_)
        rcases List.mem_append.1 hctm with hm | hm
        · exact absurd hm c9
        · exact hm
  · -- capture started; the failure comes from the register/hook phase
    obtain ⟨⟨r1, r2, r3, r4, r5, r6, r7, r8, r9⟩, hreg⟩ :=
      regsPhase_spec (sinkPhase obj2 env).obj env (sinkPhase obj2 env).prescaler
    rcases hreg with ⟨hok, hobj⟩ | ⟨hok, hobj⟩
    · exfalso
      apply hst
      unfold enableSink
      rw [if_neg (by simp [hB1]), if_pos hok]
    · unfold enableSink at hst ⊢
      rw [if_neg (by simp [hB1]), if_neg hok,
        if_pos (show (regsPhase (sinkPhase obj2 env).obj env
          (sinkPhase obj2 env).prescaler).obj.enCapture = true by
            rw [hobj]; exact hB2)] at hst ⊢
      refine ⟨?_, rfl, rfl, ?_, ?_, ?_, ?_, ?_⟩
      · show (regsPhase (sinkPhase obj2 env).obj env
          (sinkPhase obj2 env).prescaler).obj.enabled = false
        rw [hobj, hB3, hen]
      · simp only [closeOutputActs, closeOutputObj, List.count_append, count_ite,
          List.count_cons, List.count_nil, List.count_singleton, c1, c2, hB8, hB9,
          r1, r2, hobj]
        simp
      · simp only [closeOutputActs, closeOutputObj, List.count_append, count_ite,
          List.count_cons, List.count_nil, List.count_singleton, c3, c4, hB10,
          hB11, r3, r4, hobj, hB4]
        simp
      · simp only [closeOutputActs, closeOutputObj, List.count_append, count_ite,
          List.count_cons, List.count_nil, List.count_singleton, c5, c6, hB12,
          hB13, r5, r6, hobj]
        simp
      · simp [closeOutputActs, closeOutputObj, List.mem_append, mem_ite, c7,
          hB14, r7, hobj]
      · refine iff_of_true (by simp [List.mem_append]) ⟨hB6, ?_, hB7⟩
        simp [List.mem_append, hB16]
  · -- external output: nothing acquired, capture never starts
    obtain ⟨⟨r1, r2, r3, r4, r5, r6, r7, r8, r9⟩, hreg⟩ :=
      regsPhase_spec (sinkPhase obj2 env).obj env (sinkPhase obj2 env).prescaler
    rcases hreg with ⟨hok, hobj⟩ | ⟨hok, hobj⟩
    · exfalso
      apply hst
      unfold enableSink
      rw [if_neg (by simp [hC1]), if_pos hok]
    · unfold enableSink at hst ⊢
      rw [if_neg (by simp [hC1]), if_neg hok,
        if_neg (show ¬(regsPhase (sinkPhase obj2 env).obj env
          (sinkPhase obj2 env).prescaler).obj.enCapture = true by
            rw [hobj, hC2, hec]; exact Bool.false_ne_true)] at hst ⊢
      refine ⟨?_, ?_, ?_, ?_, ?_, ?_, ?_, ?_⟩
      · show (regsPhase (sinkPhase obj2 env).obj env
          (sinkPhase obj2 env).prescaler).obj.enabled = false
        rw [hobj, hC3, hen]
      · show (regsPhase (sinkPhase obj2 env).obj env
          (sinkPhase obj2 env).prescaler).obj.fileOpen = false
        rw [hobj, hC4]
      · show (regsPhase (sinkPhase obj2 env).obj env
          (sinkPhase obj2 env).prescaler).obj.enCapture = false
        rw [hobj, hC2, hec]
      · simp only [List.count_append, c1, c2, hC5, r1, r2, List.count_nil]
      · simp only [List.count_append, c3, c4, hC5, r3, r4, List.count_nil]
      · simp only [List.count_append, c5, c6, hC5, r5, r6, List.count_nil]
      · simp [List.mem_append, c7, hC5, r7]
      · refine iff_of_false ?_ ?_
        · intro hmem
          rcases List.mem_append.1 hmem with hm | hm
          · rcases List.mem_append.1 hm with hm2 | hm2
            · exact c8 hm2
            · rw [hC5] at hm2
              simp at hm2
          · exact r8 hm
        · rintro ⟨hco, hctm, hnrj⟩
          rcases List.mem_append.1 hctm with hm | hm
          · rcases List.mem_append.1 hm with hm2 | hm2
            · exact c9 hm2
            · rw [hC5] at hm2
              simp at hm2
          · exact r9 hm

theorem actsClean_regRead (o : Nat) : actsClean [TAct.regRead o] := by
  simp [actsClean]

theorem actsClean_apGet : actsClean [TAct.apGet] := by
  simp [actsClean]

theorem actsClean_hookRun (e : TEvent) : actsClean [TAct.hookRun e] := by
  simp [actsClean]

theorem actsClean_ite (c : Prop) [Decidable c] {l1 l2 : List TAct}
    (h1 : actsClean l1) (h2 : actsClean l2) : actsClean (if c then l1 else l2) := by
  split_ifs
  exacts [h1, h2]

theorem actsClean_handleEventActs (obj : TpiuObj) (e : TEvent) :
    actsClean (handleEventActs obj e) := by
  unfold handleEventActs
  split_ifs
  exacts [actsClean_hookRun e, actsClean_nil]

theorem cleanPost_of_clean (pin : Nat) (env : TpiuEnv) (st : Int) (o : TpiuObj)
    (l : List TAct) (hen : o.enabled = false) (hfo : o.fileOpen = false)
    (hec : o.enCapture = false) (hcl : actsClean l) :
    cleanPost pin env (⟨st, o, l⟩ : EnableOut) := by
  obtain ⟨c1, c2, c3, c4, c5, c6, c7, c8, c9⟩ := hcl
  exact ⟨hen, hfo, hec, by simp [c1, c2], by simp [c3, c4], by simp [c5, c6], c7,
    iff_of_false c8 (fun hr => c9 hr.2.1)⟩

theorem enableDevid_spec (obj2 : TpiuObj) (env : TpiuEnv) (acts1 : List TAct)
    (hen : obj2.enabled = false) (hfo : obj2.fileOpen = false)
    (hec : obj2.enCapture = false) (hcl : actsClean acts1) :
    (enableDevid obj2 env acts1).status ≠ ERROR_OK →
    cleanPost obj2.pinProtocol env (enableDevid obj2 env acts1) := by
  intro hst
  unfold enableDevid at hst ⊢
  by_cases h1 : env.devidReadOk = true
  · rw [if_neg (by simp [h1])] at hst ⊢
    by_cases h2 : protoSupported obj2.pinProtocol env.devid = true
    · rw [if_neg (by simp [h2])] at hst ⊢
      by_cases h3 : obj2.pinProtocol = TPIU_PROTOCOL_SYNC
      · rw [if_pos h3] at hst ⊢
        by_cases h4 : env.sspsrReadOk = true
        · rw [if_neg (by simp [h4])] at hst ⊢
          by_cases h5 : env.sspsr.testBit (obj2.portWidth - 1) = true
          · rw [if_neg (by simp [h5])] at hst ⊢
            exact enableSink_spec obj2 env _ hen hfo hec
              (actsClean_append hcl (actsClean_regRead _)) hst
          · rw [if_pos (by simp [h5])] at hst ⊢
            exact cleanPost_of_clean _ _ _ _ _ hen hfo hec
              (actsClean_append hcl (actsClean_regRead _))
        · rw [if_pos (by simp [h4])] at hst ⊢
          exact cleanPost_of_clean _ _ _ _ _ hen hfo hec
            (actsClean_append hcl (actsClean_regRead _))
      · rw [if_neg h3] at hst ⊢
        exact enableSink_spec obj2 env acts1 hen hfo hec hcl hst
    · rw [if_pos (by simp [h2])] at hst ⊢
      exact cleanPost_of_clean _ _ _ _ _ hen hfo hec hcl
  · rw [if_pos (by simp [h1])] at hst ⊢
    exact cleanPost_of_clean _ _ _ _ _ hen hfo hec hcl

theorem enableHook_spec (obj2 : TpiuObj) (env : TpiuEnv) (apActs : List TAct)
    (hen : obj2.enabled = false) (hfo : obj2.fileOpen = false)
    (hec : obj2.enCapture = false) (hcl : actsClean apActs) :
    (enableHook obj2 env apActs).status ≠ ERROR_OK →
    cleanPost obj2.pinProtocol env (enableHook obj2 env apActs) := by
  intro hst
  unfold enableHook at hst ⊢
  by_cases hh : handleEventOk obj2 env TEvent.preEnable = true
  · rw [if_neg (by simp [hh])] at hst ⊢
    exact enableDevid_spec obj2 env _ hen hfo hec
      (actsClean_append (actsClean_append hcl (actsClean_handleEventActs obj2 _))
        (actsClean_regRead _)) hst
  · rw [if_pos (by simp [hh])] at hst ⊢
    exact cleanPost_of_clean _ _ _ _ _ hen hfo hec
      (actsClean_append hcl (actsClean_handleEventActs obj2 _))

theorem enableAp_spec (obj1 : TpiuObj) (env : TpiuEnv)
    (hen : obj1.enabled = false) (hfo : obj1.fileOpen = false)
    (hec : obj1.enCapture = false) :
    (enableAp obj1 env).status ≠ ERROR_OK →
    cleanPost obj1.pinProtocol env (enableAp obj1 env) := by
  intro hst
  unfold enableAp at hst ⊢
  by_cases hc : ¬obj1.apHeld = true ∧ ¬env.apGetOk = true
  · rw [if_pos hc] at hst ⊢
    exact cleanPost_of_clean _ _ _ _ _ hen hfo hec actsClean_nil
  · rw [if_neg hc] at hst ⊢
    exact enableHook_spec { obj1 with apHeld := true } env _ hen hfo hec
      (actsClean_ite _ actsClean_nil actsClean_apGet) hst

theorem enable_failure_cleanPost (obj : TpiuObj) (env : TpiuEnv)
    (hfo : obj.fileOpen = false) (hec : obj.enCapture = false)
    (hst : (enable obj env).status ≠ ERROR_OK) :
    cleanPost obj.pinProtocol env (enable obj env) := by
  unfold enable at hst ⊢
  by_cases h1 : env.isConfigMode = true
  · rw [if_pos h1] at hst
    exact absurd rfl hst
  · rw [if_neg h1] at hst ⊢
    by_cases h2 : obj.enabled = true
    · rw [if_pos h2] at hst
      exact absurd rfl hst
    · have hen : obj.enabled = false := by simpa using h2
      rw [if_neg h2] at hst ⊢
      by_cases h3 : env.transportHla = true ∧ obj.spotApNum ≠ 0
      · rw [if_pos h3] at hst ⊢
        exact cleanPost_of_clean _ _ _ _ _ hen hfo hec actsClean_nil
      · rw [if_neg h3] at hst ⊢
        by_cases h4 : obj.traceclkinFreq = 0
        · rw [if_pos h4] at hst ⊢
          exact cleanPost_of_clean _ _ _ _ _ hen hfo hec actsClean_nil
        · rw [if_neg h4] at hst ⊢
          by_cases h5 : uartOrManch obj.pinProtocol = true ∧ obj.swoPinFreq = 0 ∧
              obj.outFilename = "external"
          · rw [if_pos h5] at hst ⊢
            exact cleanPost_of_clean _ _ _ _ _ hen hfo hec actsClean_nil
          · rw [if_neg h5] at hst ⊢
            by_cases h6 : obj.recheckApCurTarget = true ∧ ¬env.recheckOk = true
            · rw [if_pos h6] at hst ⊢
              exact cleanPost_of_clean _ _ _ _ _ hen hfo hec actsClean_nil
            · rw [if_neg h6] at hst ⊢
              by_cases hrc : obj.recheckApCurTarget = true
              · rw [if_pos hrc] at hst ⊢
                exact enableAp_spec { obj with recheckApCurTarget := false, spotApNum := env.recheckApNum } env hen hfo hec hst
              · rw [if_neg hrc] at hst ⊢
                exact enableAp_spec obj env hen hfo hec hst

/-- Claim C4 counterexample: with `-output -`, UART and an adapter that
accepts `config_trace(true, ...)` but reports back pin frequency 0, the
enable fails AFTER a successful `config_trace(true, ...)` yet never calls
`config_trace(false, ...)`, and the AP handle acquired on the way is not
released. -/
theorem C4_counterexample :
    (enable c4Obj c4Env).status ≠ ERROR_OK ∧
    TAct.configTrace true ∈ (enable c4Obj c4Env).acts ∧
    TAct.configTrace false ∉ (enable c4Obj c4Env).acts ∧
    TAct.apGet ∈ (enable c4Obj c4Env).acts ∧
    TAct.apPut ∉ (enable c4Obj c4Env).acts ∧
    (enable c4Obj c4Env).obj.apHeld = true ∧
    (enable c4Obj c4Env).obj.enabled = false := by
  decide

/-- Claim C4 (amended): every failing enable leaves `enabled=false`, the
sink file closed, capture off, the trace file / TCP service / poll timer
acquisitions balanced by releases — but the AP handle is never released by
`enable` (it is kept for later attempts and dropped only at cleanup), and
`config_trace(false, ...)` is called iff `config_trace(true, ...)` was
called and succeeded and the failure happened later, EXCEPT on the path
where the adapter reports SWO pin frequency 0: there `config_trace(true)`
succeeded but `config_trace(false)` is never called. -/
theorem C4_enable_failure_cleanup (obj : TpiuObj) (env : TpiuEnv)
    (hfo : obj.fileOpen = false) (hec : obj.enCapture = false) :
    (enable obj env).status ≠ ERROR_OK →
    (enable obj env).obj.enabled = false ∧
    (enable obj env).obj.fileOpen = false ∧
    (enable obj env).obj.enCapture = false ∧
    (enable obj env).acts.count TAct.openTraceFile =
      (enable obj env).acts.count TAct.closeTraceFile ∧
    (enable obj env).acts.count TAct.addService =
      (enable obj env).acts.count TAct.removeService ∧
    (enable obj env).acts.count TAct.registerTimer =
      (enable obj env).acts.count TAct.unregisterTimer ∧
    TAct.apPut ∉ (enable obj env).acts ∧
    (TAct.configTrace false ∈ (enable obj env).acts ↔
      (env.configTraceOk = true ∧ TAct.configTrace true ∈ (enable obj env).acts ∧
        ¬(uartOrManch obj.pinProtocol = true ∧ env.adapterFreq = 0))) := by
  intro hst
  have key : cleanPost obj.pinProtocol env (enable obj env) :=
    enable_failure_cleanPost obj env hfo hec hst
  exact key

/-- Witness for C4 (amended) at the concrete freq-0 fixture. -/
theorem C4_enable_failure_cleanup_witness :
    (c4Obj.fileOpen = false ∧ c4Obj.enCapture = false ∧
      (enable c4Obj c4Env).status ≠ ERROR_OK) ∧
    (enable c4Obj c4Env).obj.enabled = false ∧
    TAct.apPut ∉ (enable c4Obj c4Env).acts := by
  refine ⟨⟨by decide, by decide, by decide⟩, ?_, ?_⟩
  · exact (C4_enable_failure_cleanup c4Obj c4Env (by decide) (by decide)
      (by decide)).1
  · exact (C4_enable_failure_cleanup c4Obj c4Env (by decide) (by decide)
      (by decide)).2.2.2.2.2.2.1

end OpenOCD
